import Mathlib

/-!
Octane render integration: the object manager (`object.cpp`).

A shallow embedding of `blender/intern/octane/blender/render/object.cpp`:
`Object::~Object`, `Object::tag_update`, `ObjectManager::server_update` and
`ObjectManager::tag_update`.

Modelling decisions
* A `float` is carried by its bit pattern (a `Nat`): the code only copies floats.
* Names are C strings without an embedded NUL, so `std::string(x.c_str())` is `x`.
* `Mesh*` and `Light*` are addresses; the scene carries what they point to
  (`mem_mesh`, `mem_light`).  Every pointer the scene stores is valid, and every shader
  index is an index of the scene's shader table (`shaders`).
* The scene owns its `Object`s: each `Object*` of a `vector<Object*>` stands at one
  place of one group only (the scene deletes each of them once), so a group is a list of
  `Object` values and writing `object->need_update` rewrites that place.
  A method called on an object takes the receiver together with the place where the scene
  holds it, and writes through `this` land on that place.
* `std::map` iteration order is the order of the list of groups.
* Calls that leave the file (`Progress::set_status`, `Progress::get_cancel`,
  `RenderServer::load_scatter`, `RenderServer::delete_scatter`,
  `MeshManager::tag_global_update`) are recorded, in order, in a list of `Call`s.
  `load_scatter` receives the content of the buffer at the time of the call.
* `uint64_t cnt` counts elements of one `vector<Object*>`; neither `++cnt` nor
  `cnt * 12` can wrap for a vector that fits in memory, so `cnt` is a `Nat`.
-/

namespace Octane

/-! ## Data model -/

/-- Bit pattern of a C `float`. -/
abbrev float := Nat

/-- The `float4` of `util_types.h`. -/
structure float4 where
  x : float
  y : float
  z : float
  w : float
deriving DecidableEq, Repr

/-- The rows `x`, `y`, `z` of a `Transform`. -/
structure Transform where
  x : float4
  y : float4
  z : float4
deriving DecidableEq, Repr

/-- The enumerators of `Mesh::MeshType` that `object.cpp` names; `OTHER` is any further one. -/
inductive MeshType where
  | GLOBAL
  | AS_IS
  | RESHAPABLE_PROXY
  | MOVABLE_PROXY
  | OTHER
deriving DecidableEq, Repr

/-- The enumerators of the animation mode that `object.cpp` names; `OTHER` is any further one. -/
inductive AnimationMode where
  | CAM_ONLY
  | MOVABLE_PROXIES
  | OTHER
deriving DecidableEq, Repr

/-- The fields of `Shader` read here. -/
structure Shader where
  name : String
deriving DecidableEq, Repr

/-- The fields of `Mesh` read or written here. -/
structure Mesh where
  name : String
  mesh_type : MeshType
  used_shaders : List Nat
  need_update : Bool
deriving DecidableEq, Repr

/-- The fields of `Light` read here; `mesh` is a `Mesh*`. -/
structure Light where
  name : String
  mesh : Nat
deriving DecidableEq, Repr

/-- The class `Object`; `mesh` and `light` are pointers, `none` is the null pointer. -/
structure Object where
  name : String
  mesh : Option Nat
  light : Option Nat
  tfm : Transform
  visibility : Bool
  random_id : Nat
  pass_id : Nat
  particle_id : Int
  use_holdout : Bool
  used_shaders : List Nat
  need_update : Bool
deriving DecidableEq, Repr

/-- The `params` of a `Session`. -/
structure SessionParams where
  interactive : Bool
deriving DecidableEq, Repr

/-- The fields of `Session` read here. -/
structure Session where
  params : SessionParams
deriving DecidableEq, Repr

/-- The class `ObjectManager`. -/
structure ObjectManager where
  need_update : Bool
deriving DecidableEq, Repr

/-- The field of `MeshManager` written here. -/
structure MeshManager where
  need_update : Bool
deriving DecidableEq, Repr

/-- The field of `LightManager` written here. -/
structure LightManager where
  need_update : Bool
deriving DecidableEq, Repr

/-- The fields of `Scene` used by `object.cpp`, with the memory its pointers point into. -/
structure Scene where
  meshes_type : MeshType
  first_frame : Bool
  anim_mode : AnimationMode
  shaders : Nat → Shader
  objects : List (Nat × List Object)
  light_objects : List (Nat × List Object)
  object_manager : ObjectManager
  mesh_manager : MeshManager
  light_manager : LightManager
  session : Option Session
  mem_mesh : Nat → Mesh
  mem_light : Nat → Light

/-- A call that leaves `object.cpp`. -/
inductive Call where
  | set_status (status : String) (substatus : String)
  | get_cancel
  | load_scatter (name : String) (mesh_name : String) (matrices : List float) (cnt : Nat)
      (shader_names : List String)
  | delete_scatter (name : String)
  | tag_global_update
deriving DecidableEq, Repr

/-- The `Progress` of one call of `server_update`: what its `n`-th `get_cancel()` answers. -/
structure Progress where
  get_cancel : Nat → Bool

/-- Result of `new float[n]`; the content is never read before it is written. -/
def new_float (n : Nat) : List float := List.replicate n 0

/-! ## `Object::~Object` (lines 51-65) -/

/-- The destructor `Object::~Object`: the calls it makes; `scene` is the object's scene. -/
def Object.destructor (scene : Scene) (self : Object) : List Call :=
  match self.mesh, scene.session with
  | some mesh, some session =>
    if session.params.interactive then
      if (scene.mem_mesh mesh).mesh_type = MeshType.GLOBAL then [Call.tag_global_update]
      else if self.particle_id ≠ 0 then
        let cur_name := (scene.mem_mesh mesh).name
        let cur_name := cur_name ++ "__part___s__"
        [Call.delete_scatter cur_name]
      else
        let cur_name := self.name
        let cur_name := cur_name ++ "__" ++ (scene.mem_mesh mesh).name ++ "_s__"
        [Call.delete_scatter cur_name]
    else []
  | _, _ => []

/-! ## `Object::tag_update` (lines 70-79) -/

/-- The place where the scene holds an object: in `light_objects` (`lamp`) or in `objects`,
the index of the group in the order of the groups, and the index in the group's vector. -/
structure ObjectPlace where
  lamp : Bool
  group : Nat
  index : Nat
deriving DecidableEq, Repr

/-- The object at index `index` of the group at index `group`, if there is one. -/
def object_in (groups : List (Nat × List Object)) (group index : Nat) : Option Object :=
  (groups[group]?).bind (fun g => g.2[index]?)

/-- The groups with `o` written at index `index` of the group at index `group`. -/
def set_object_in (groups : List (Nat × List Object)) (group index : Nat) (o : Object) :
    List (Nat × List Object) :=
  match groups[group]? with
  | some g => groups.set group (g.1, g.2.set index o)
  | none => groups

/-- The object that the scene holds at a place, if there is one. -/
def Scene.object_at (scene : Scene) (place : ObjectPlace) : Option Object :=
  if place.lamp then object_in scene.light_objects place.group place.index
  else object_in scene.objects place.group place.index

/-- The scene with `o` written at a place. -/
def Scene.set_object_at (scene : Scene) (place : ObjectPlace) (o : Object) : Scene :=
  if place.lamp then
    { scene with
      light_objects := set_object_in scene.light_objects place.group place.index o }
  else
    { scene with objects := set_object_in scene.objects place.group place.index o }

/-- The method `Object::tag_update`: the receiver and the scene afterwards.  `self` is the
receiver and `place` is where the scene holds it (`none` for an object that stands in no
group of the scene): the write `need_update = true` of line 77 goes through `this`, so it
lands on that place of the scene.  Writing `mesh->need_update` rewrites the memory at the
address `mesh`. -/
def Object.tag_update (self : Object) (scene : Scene) (place : Option ObjectPlace) :
    Object × Scene :=
  let scene :=
    match self.mesh with
    | some mesh =>
      if scene.meshes_type = MeshType.GLOBAL
          ∨ (scene.meshes_type = MeshType.AS_IS
              ∧ (scene.mem_mesh mesh).mesh_type = MeshType.GLOBAL) then
        let scene :=
          if !(scene.mem_mesh mesh).need_update then
            { scene with
              mem_mesh :=
                Function.update scene.mem_mesh mesh
                  { scene.mem_mesh mesh with need_update := true } }
          else scene
        let scene :=
          if !scene.mesh_manager.need_update then
            { scene with mesh_manager := { scene.mesh_manager with need_update := true } }
          else scene
        scene
      else scene
    | none => scene
  let self := { self with need_update := true }
  let scene :=
    match place with
    | some place => scene.set_object_at place self
    | none => scene
  let scene := { scene with object_manager := { scene.object_manager with need_update := true } }
  (self, scene)

/-! ## `ObjectManager::server_update` (lines 96-243) -/

/-- The group test of lines 107-112: `true` when the mesh group is passed over (`continue`). -/
def skip_mesh_group (scene : Scene) (cur_mesh : Mesh) : Bool :=
  (scene.meshes_type == MeshType.GLOBAL
      || (scene.meshes_type == MeshType.AS_IS && cur_mesh.mesh_type == MeshType.GLOBAL))
    || (!scene.first_frame
        && (scene.anim_mode == AnimationMode.CAM_ONLY
            || (scene.anim_mode == AnimationMode.MOVABLE_PROXIES
                && scene.meshes_type != MeshType.RESHAPABLE_PROXY
                && scene.meshes_type != MeshType.MOVABLE_PROXY
                && (scene.meshes_type != MeshType.AS_IS
                    || (cur_mesh.mesh_type != MeshType.RESHAPABLE_PROXY
                        && cur_mesh.mesh_type != MeshType.MOVABLE_PROXY)))))

/-- The group test of lines 199-204: `true` when the light group is passed over (`continue`). -/
def skip_light_group (scene : Scene) (cur_light : Light) : Bool :=
  (scene.meshes_type == MeshType.GLOBAL
      || (scene.meshes_type == MeshType.AS_IS
          && (scene.mem_mesh cur_light.mesh).mesh_type == MeshType.GLOBAL))
    || (!scene.first_frame
        && (scene.anim_mode == AnimationMode.CAM_ONLY
            || (scene.anim_mode == AnimationMode.MOVABLE_PROXIES
                && scene.meshes_type != MeshType.RESHAPABLE_PROXY
                && scene.meshes_type != MeshType.MOVABLE_PROXY
                && (scene.meshes_type != MeshType.AS_IS
                    || ((scene.mem_mesh cur_light.mesh).mesh_type != MeshType.RESHAPABLE_PROXY
                        && (scene.mem_mesh cur_light.mesh).mesh_type != MeshType.MOVABLE_PROXY)))))

/-- Lines 135-147: the twelve stores `matrices[i++] = ...` of the direct-object upload. -/
def store_direct (matrices : List float) (tfm : Transform) : List float :=
  let i := 0
  let matrices := matrices.set i tfm.x.x
  let i := i + 1
  let matrices := matrices.set i tfm.x.y
  let i := i + 1
  let matrices := matrices.set i tfm.x.z
  let i := i + 1
  let matrices := matrices.set i tfm.x.w
  let i := i + 1
  let matrices := matrices.set i tfm.y.x
  let i := i + 1
  let matrices := matrices.set i tfm.y.y
  let i := i + 1
  let matrices := matrices.set i tfm.y.z
  let i := i + 1
  let matrices := matrices.set i tfm.y.w
  let i := i + 1
  let matrices := matrices.set i tfm.z.x
  let i := i + 1
  let matrices := matrices.set i tfm.z.y
  let i := i + 1
  let matrices := matrices.set i tfm.z.z
  let i := i + 1
  let matrices := matrices.set i tfm.z.w
  matrices

/-- Lines 171-182: the twelve stores of one slot of the particle batch, from index `i` on;
the buffer and the index after them. -/
def store_particle (matrices : List float) (i : Nat) (tfm : Transform) : List float × Nat :=
  let matrices := matrices.set i tfm.x.x
  let i := i + 1
  let matrices := matrices.set i tfm.x.y
  let i := i + 1
  let matrices := matrices.set i tfm.x.z
  let i := i + 1
  let matrices := matrices.set i tfm.x.w
  let i := i + 1
  let matrices := matrices.set i tfm.y.x
  let i := i + 1
  let matrices := matrices.set i tfm.y.y
  let i := i + 1
  let matrices := matrices.set i tfm.y.z
  let i := i + 1
  let matrices := matrices.set i tfm.y.w
  let i := i + 1
  let matrices := matrices.set i tfm.z.x
  let i := i + 1
  let matrices := matrices.set i tfm.z.y
  let i := i + 1
  let matrices := matrices.set i tfm.z.z
  let i := i + 1
  let matrices := matrices.set i tfm.z.w
  let i := i + 1
  (matrices, i)

/-- Lines 219-231: the twelve stores `matrices[i++] = ...` of the light upload. -/
def store_light (matrices : List float) (tfm : Transform) : List float :=
  let i := 0
  let matrices := matrices.set i tfm.x.x
  let i := i + 1
  let matrices := matrices.set i tfm.x.y
  let i := i + 1
  let matrices := matrices.set i tfm.x.z
  let i := i + 1
  let matrices := matrices.set i tfm.x.w
  let i := i + 1
  let matrices := matrices.set i tfm.y.x
  let i := i + 1
  let matrices := matrices.set i tfm.y.y
  let i := i + 1
  let matrices := matrices.set i tfm.y.z
  let i := i + 1
  let matrices := matrices.set i tfm.y.w
  let i := i + 1
  let matrices := matrices.set i tfm.z.x
  let i := i + 1
  let matrices := matrices.set i tfm.z.y
  let i := i + 1
  let matrices := matrices.set i tfm.z.z
  let i := i + 1
  let matrices := matrices.set i tfm.z.w
  matrices

/-- The locals of the loop of lines 117-153, the objects visited so far (as the loop leaves
them) and the calls made so far. -/
structure MeshLoop where
  cnt : Nat
  matrices : List float
  mesh_needs_update : Bool
  visited : List Object
  calls : List Call

/-- One iteration of the loop of lines 117-153. -/
def mesh_loop_body (scene : Scene) (cur_mesh : Mesh) (st : MeshLoop) (object : Object) :
    MeshLoop :=
  if object.particle_id ≠ 0 then
    { st with
      mesh_needs_update :=
        if object.need_update && !st.mesh_needs_update then true else st.mesh_needs_update
      cnt := st.cnt + 1
      visited := st.visited ++ [object] }
  else if object.need_update then
    let object := { object with need_update := false }
    let shader_names := object.used_shaders.map (fun it => (scene.shaders it).name)
    let matrices := store_direct st.matrices object.tfm
    let cur_object_name := object.name
    let cur_object_name := cur_object_name ++ "__" ++ cur_mesh.name
    let cur_mesh_name := cur_mesh.name
    { st with
      matrices := matrices
      visited := st.visited ++ [object]
      calls := st.calls ++
        [Call.load_scatter cur_object_name cur_mesh_name matrices 1 shader_names] }
  else
    { st with visited := st.visited ++ [object] }

/-- The locals of the loop of lines 164-183 and the objects visited so far. -/
structure ParticleLoop where
  i : Nat
  matrices : List float
  visited : List Object

/-- One iteration of the loop of lines 164-183. -/
def particle_loop_body (st : ParticleLoop) (object : Object) : ParticleLoop :=
  if ¬ (object.particle_id ≠ 0) then
    { st with visited := st.visited ++ [object] }
  else
    let object := if object.need_update then { object with need_update := false } else object
    let r := store_particle st.matrices st.i object.tfm
    { i := r.2, matrices := r.1, visited := st.visited ++ [object] }

/-- The body of the loop over mesh groups (lines 106-189) for one group: the objects of the
group afterwards and the calls made. -/
def update_mesh_group (scene : Scene) (group : Nat × List Object) : List Object × List Call :=
  let cur_mesh := scene.mem_mesh group.1
  if skip_mesh_group scene cur_mesh then (group.2, [])
  else
    let st := group.2.foldl (mesh_loop_body scene cur_mesh)
      { cnt := 0, matrices := new_float 12, mesh_needs_update := false, visited := [],
        calls := [] }
    if st.mesh_needs_update && st.cnt ≠ 0 then
      let matrices := new_float (st.cnt * 12)
      let shader_names := cur_mesh.used_shaders.map (fun it => (scene.shaders it).name)
      let pst := st.visited.foldl particle_loop_body
        { i := 0, matrices := matrices, visited := [] }
      let cur_mesh_name := cur_mesh.name
      let cur_part_name := cur_mesh_name ++ "__part__"
      (pst.visited,
        st.calls ++ [Call.load_scatter cur_part_name cur_mesh_name pst.matrices st.cnt
          shader_names])
    else (st.visited, st.calls)

/-- The loop over mesh groups (lines 105-190): the groups afterwards and the calls made. -/
def update_mesh_groups (scene : Scene) (groups : List (Nat × List Object)) :
    List (Nat × List Object) × List Call :=
  groups.foldl
    (fun acc group =>
      let r := update_mesh_group scene group
      (acc.1 ++ [(group.1, r.1)], acc.2 ++ r.2))
    ([], [])

/-- The locals of the loop of lines 212-237, the objects visited so far and the calls made. -/
structure LightLoop where
  matrices : List float
  mesh_needs_update : Bool
  visited : List Object
  calls : List Call

/-- One iteration of the loop of lines 212-237. -/
def light_loop_body (cur_light : Light) (shader_names : List String) (st : LightLoop)
    (object : Object) : LightLoop :=
  let dirty := object.need_update
  let object := if dirty then { object with need_update := false } else object
  let mesh_needs_update :=
    if dirty then (if !st.mesh_needs_update then true else st.mesh_needs_update)
    else st.mesh_needs_update
  let matrices := store_light st.matrices object.tfm
  let cur_scatter_name := object.name
  let cur_light_name := cur_light.name
  let cur_scatter_name := cur_scatter_name ++ "__" ++ cur_light_name
  { matrices := matrices
    mesh_needs_update := mesh_needs_update
    visited := st.visited ++ [object]
    calls :=
      if mesh_needs_update then
        st.calls ++ [Call.load_scatter cur_scatter_name cur_light_name matrices 1 shader_names]
      else st.calls }

/-- The body of the loop over light groups (lines 198-239) for one group. -/
def update_light_group (scene : Scene) (group : Nat × List Object) : List Object × List Call :=
  let cur_light := scene.mem_light group.1
  if skip_light_group scene cur_light then (group.2, [])
  else
    let shader_names := [] ++ ["__" ++ cur_light.name]
    let st := group.2.foldl (light_loop_body cur_light shader_names)
      { matrices := new_float 12, mesh_needs_update := false, visited := [], calls := [] }
    (st.visited, st.calls)

/-- The loop over light groups (lines 197-240). -/
def update_light_groups (scene : Scene) (groups : List (Nat × List Object)) :
    List (Nat × List Object) × List Call :=
  groups.foldl
    (fun acc group =>
      let r := update_light_group scene group
      (acc.1 ++ [(group.1, r.1)], acc.2 ++ r.2))
    ([], [])

/-- Lines 193-241: the light part of `server_update`, entered with the calls made so far and
the number of `get_cancel()` polls made so far. -/
def server_update_lights (scene : Scene) (progress : Progress) (calls : List Call)
    (polls : Nat) : Scene × List Call :=
  if scene.light_objects.length ≠ 0 then
    let calls := calls ++
      [Call.set_status "Updating Lamp Objects" "Copying Transformations to server",
        Call.get_cancel]
    if progress.get_cancel polls then (scene, calls)
    else
      let r := update_light_groups scene scene.light_objects
      ({ scene with light_objects := r.1 }, calls ++ r.2)
  else (scene, calls)

/-- The method `ObjectManager::server_update` of the scene's object manager: the scene
afterwards and the calls made, in order. -/
def ObjectManager.server_update (scene : Scene) (progress : Progress) : Scene × List Call :=
  if !scene.object_manager.need_update then (scene, [])
  else
    let scene := { scene with object_manager := { need_update := false } }
    if scene.objects.length ≠ 0 then
      let calls := [Call.set_status "Updating Objects" "Copying Transformations to server",
        Call.get_cancel]
      if progress.get_cancel 0 then (scene, calls)
      else
        let r := update_mesh_groups scene scene.objects
        server_update_lights { scene with objects := r.1 } progress (calls ++ r.2) 1
    else server_update_lights scene progress [] 0

/-! ## `ObjectManager::tag_update` (lines 248-252) -/

/-- The method `ObjectManager::tag_update` of the scene's object manager. -/
def ObjectManager.tag_update (scene : Scene) : Scene :=
  { scene with
    object_manager := { scene.object_manager with need_update := true }
    mesh_manager := { scene.mesh_manager with need_update := true }
    light_manager := { scene.light_manager with need_update := true } }

/-! ## Closed forms used to state and prove the properties -/

/-- The twelve values of a transform as the specification lists them:
x.x, x.y, x.z, x.w, y.x, y.y, y.z, y.w, z.x, z.y, z.z, z.w. -/
def transform_values (tfm : Transform) : List float :=
  [tfm.x.x, tfm.x.y, tfm.x.z, tfm.x.w, tfm.y.x, tfm.y.y, tfm.y.z, tfm.y.w,
   tfm.z.x, tfm.z.y, tfm.z.z, tfm.z.w]

/-- The object with its `need_update` flag false and nothing else changed. -/
def Object.cleared (o : Object) : Object := { o with need_update := false }

/-- The names of the shaders of a list of shader indices. -/
def Scene.shader_names (scene : Scene) (used_shaders : List Nat) : List String :=
  used_shaders.map (fun it => (scene.shaders it).name)

/-- The single-instance upload of a direct object of a mesh group. -/
def direct_upload (scene : Scene) (cur_mesh : Mesh) (o : Object) : Call :=
  Call.load_scatter (o.name ++ "__" ++ cur_mesh.name) cur_mesh.name (transform_values o.tfm) 1
    (scene.shader_names o.used_shaders)

/-- The dirty direct objects of a group, in order. -/
def dirty_direct (os : List Object) : List Object :=
  os.filter (fun o => decide (o.particle_id = 0) && o.need_update)

/-- The particle objects of a group, in order. -/
def particles (os : List Object) : List Object :=
  os.filter (fun o => decide (o.particle_id ≠ 0))

/-- Whether some particle object of the group is dirty. -/
def batch_triggered (os : List Object) : Bool :=
  (particles os).any (fun o => o.need_update)

/-- The batched upload of the particle objects of a mesh group. -/
def batch_upload (scene : Scene) (cur_mesh : Mesh) (os : List Object) : Call :=
  Call.load_scatter (cur_mesh.name ++ "__part__") cur_mesh.name
    ((particles os).flatMap (fun o => transform_values o.tfm)) (particles os).length
    (scene.shader_names cur_mesh.used_shaders)

/-- The objects of a mesh group that is not passed over, after its turn. -/
def mesh_group_after (os : List Object) : List Object :=
  os.map (fun o => if o.particle_id ≠ 0 ∧ batch_triggered os = false then o else o.cleared)

/-- The calls made for a mesh group that is not passed over. -/
def mesh_group_calls (scene : Scene) (cur_mesh : Mesh) (os : List Object) : List Call :=
  (dirty_direct os).map (direct_upload scene cur_mesh)
    ++ (if batch_triggered os then [batch_upload scene cur_mesh os] else [])

/-- The single-instance upload of an object of a light group. -/
def light_upload (cur_light : Light) (o : Object) : Call :=
  Call.load_scatter (o.name ++ "__" ++ cur_light.name) cur_light.name (transform_values o.tfm) 1
    ["__" ++ cur_light.name]

/-- The calls made for the objects of a light group that is not passed over, `flag` being
the value of `mesh_needs_update` when the first of them is reached. -/
def light_uploads (cur_light : Light) : Bool → List Object → List Call
  | _, [] => []
  | flag, o :: os =>
    (if flag || o.need_update then [light_upload cur_light o] else [])
      ++ light_uploads cur_light (flag || o.need_update) os

/-- Whether a call is a `load_scatter` call with instance count 1. -/
def Call.is_single_upload : Call → Bool
  | Call.load_scatter _ _ _ cnt _ => cnt == 1
  | _ => false

/-- Whether a call is a `load_scatter` call. -/
def Call.is_load_scatter : Call → Bool
  | Call.load_scatter _ _ _ _ _ => true
  | _ => false

/-! ## Sample scenes -/

/-- A transform with twelve different values. -/
def sample_tfm : Transform := ⟨⟨1, 2, 3, 4⟩, ⟨5, 6, 7, 8⟩, ⟨9, 10, 11, 12⟩⟩

/-- An object with the sample transform, bound to the mesh at address 1, using shader 0. -/
def sample_object (name : String) (particle_id : Int) (need_update : Bool) : Object :=
  { name := name, mesh := some 1, light := none, tfm := sample_tfm, visibility := true,
    random_id := 0, pass_id := 0, particle_id := particle_id, use_holdout := false,
    used_shaders := [0], need_update := need_update }

/-- An object with the sample transform, bound to the light at address 2. -/
def sample_lamp (name : String) (need_update : Bool) : Object :=
  { name := name, mesh := none, light := some 2, tfm := sample_tfm, visibility := true,
    random_id := 0, pass_id := 0, particle_id := 0, use_holdout := false,
    used_shaders := [], need_update := need_update }

/-- A scene on its first frame with an interactive session; every mesh is the mesh "m", of a
type other than GLOBAL and using shader 3, every light is "l", every shader is "sh". -/
def sample_scene (meshes_type : MeshType) (objects light_objects : List (Nat × List Object))
    (need_update : Bool) : Scene :=
  { meshes_type := meshes_type, first_frame := true, anim_mode := AnimationMode.OTHER,
    shaders := fun _ => ⟨"sh"⟩, objects := objects, light_objects := light_objects,
    object_manager := ⟨need_update⟩, mesh_manager := ⟨false⟩, light_manager := ⟨false⟩,
    session := some ⟨⟨true⟩⟩,
    mem_mesh := fun _ => ⟨"m", MeshType.OTHER, [3], false⟩, mem_light := fun _ => ⟨"l", 1⟩ }

/-- A progress whose polls never report a cancellation. -/
def never_cancel : Progress := ⟨fun _ => false⟩

/-! # Theorems -/

/-! ## Lemmas on the buffer stores -/

theorem eq_of_length_twelve {α : Type} (l : List α) (h : l.length = 12) :
    ∃ a0 a1 a2 a3 a4 a5 a6 a7 a8 a9 a10 a11,
      l = [a0, a1, a2, a3, a4, a5, a6, a7, a8, a9, a10, a11] := by
  rcases l with _ | ⟨a0, _ | ⟨a1, _ | ⟨a2, _ | ⟨a3, _ | ⟨a4, _ | ⟨a5, _ | ⟨a6, _ | ⟨a7,
    _ | ⟨a8, _ | ⟨a9, _ | ⟨a10, _ | ⟨a11, _ | ⟨a12, l⟩⟩⟩⟩⟩⟩⟩⟩⟩⟩⟩⟩⟩
  all_goals first
    | exact ⟨_, _, _, _, _, _, _, _, _, _, _, _, rfl⟩
    | simp at h

theorem store_particle_eq (pre mid post : List float) (tfm : Transform) (h : mid.length = 12) :
    store_particle (pre ++ mid ++ post) pre.length tfm
      = (pre ++ transform_values tfm ++ post, pre.length + 12) := by
  obtain ⟨a0, a1, a2, a3, a4, a5, a6, a7, a8, a9, a10, a11, rfl⟩ := eq_of_length_twelve mid h
  induction pre with
  | nil => rfl
  | cons p pre ih =>
    simp only [store_particle, List.cons_append, List.length_cons, List.set_cons_succ,
      Prod.mk.injEq, List.cons.injEq, true_and] at ih ⊢
    simpa [Nat.add_assoc] using ih

theorem store_direct_eq (matrices : List float) (tfm : Transform) (h : matrices.length = 12) :
    store_direct matrices tfm = transform_values tfm := by
  obtain ⟨a0, a1, a2, a3, a4, a5, a6, a7, a8, a9, a10, a11, rfl⟩ :=
    eq_of_length_twelve matrices h
  rfl

theorem store_light_eq (matrices : List float) (tfm : Transform) (h : matrices.length = 12) :
    store_light matrices tfm = transform_values tfm := by
  obtain ⟨a0, a1, a2, a3, a4, a5, a6, a7, a8, a9, a10, a11, rfl⟩ :=
    eq_of_length_twelve matrices h
  rfl

theorem transform_values_length (tfm : Transform) : (transform_values tfm).length = 12 := rfl

/-! ## Closed forms of the loops -/

theorem cleared_of_clean (o : Object) (h : o.need_update = false) : o.cleared = o := by
  cases o; simp_all [Object.cleared]

theorem mesh_loop_fold (scene : Scene) (cur_mesh : Mesh) (os : List Object) :
    ∀ st : MeshLoop, st.matrices.length = 12 →
      (os.foldl (mesh_loop_body scene cur_mesh) st).cnt = st.cnt + (particles os).length ∧
      (os.foldl (mesh_loop_body scene cur_mesh) st).mesh_needs_update
        = (st.mesh_needs_update || batch_triggered os) ∧
      (os.foldl (mesh_loop_body scene cur_mesh) st).visited
        = st.visited ++ os.map (fun o => if o.particle_id ≠ 0 then o else o.cleared) ∧
      (os.foldl (mesh_loop_body scene cur_mesh) st).calls
        = st.calls ++ (dirty_direct os).map (direct_upload scene cur_mesh) ∧
      (os.foldl (mesh_loop_body scene cur_mesh) st).matrices.length = 12 := by
  induction os with
  | nil => intro st h; simp [particles, batch_triggered, dirty_direct, h]
  | cons o os ih =>
    intro st h
    rw [List.foldl_cons]
    by_cases hp : o.particle_id ≠ 0
    · have hb : mesh_loop_body scene cur_mesh st o =
          { st with
            mesh_needs_update :=
              if o.need_update && !st.mesh_needs_update then true else st.mesh_needs_update
            cnt := st.cnt + 1
            visited := st.visited ++ [o] } := by
        simp [mesh_loop_body, hp]
      obtain ⟨h1, h2, h3, h4, h5⟩ := ih (mesh_loop_body scene cur_mesh st o) (by rw [hb]; exact h)
      rw [h1, h2, h3, h4, hb]
      rw [hb] at h5
      refine ⟨?_, ?_, ?_, ?_, h5⟩
      · simp [particles, hp]; omega
      · cases hd : o.need_update <;> cases hm : st.mesh_needs_update <;>
          simp [batch_triggered, particles, hp, hd]
      · simp [hp]
      · simp [dirty_direct, hp]
    · have hp0 : o.particle_id = 0 := by simpa using hp
      by_cases hd : o.need_update = true
      · have hb : mesh_loop_body scene cur_mesh st o =
            { st with
              matrices := transform_values o.tfm
              visited := st.visited ++ [o.cleared]
              calls := st.calls ++ [direct_upload scene cur_mesh o] } := by
          simp [mesh_loop_body, hp0, hd, store_direct_eq _ _ h, direct_upload, Object.cleared,
            Scene.shader_names]
        obtain ⟨h1, h2, h3, h4, h5⟩ := ih (mesh_loop_body scene cur_mesh st o) (by rw [hb]; rfl)
        rw [h1, h2, h3, h4, hb]
        rw [hb] at h5
        refine ⟨?_, ?_, ?_, ?_, h5⟩
        · simp [particles, hp0]
        · simp [batch_triggered, particles, hp0]
        · simp [hp0]
        · simp [dirty_direct, hp0, hd]
      · have hd0 : o.need_update = false := by simpa using hd
        have hb : mesh_loop_body scene cur_mesh st o =
            { st with visited := st.visited ++ [o] } := by
          simp [mesh_loop_body, hp0, hd0]
        obtain ⟨h1, h2, h3, h4, h5⟩ := ih (mesh_loop_body scene cur_mesh st o) (by rw [hb]; exact h)
        rw [h1, h2, h3, h4, hb]
        rw [hb] at h5
        refine ⟨?_, ?_, ?_, ?_, h5⟩
        · simp [particles, hp0]
        · simp [batch_triggered, particles, hp0]
        · simp [hp0, cleared_of_clean o hd0]
        · simp [dirty_direct, hp0, hd0]

theorem clear_if_dirty (o : Object) :
    (if o.need_update = true then { o with need_update := false } else o) = o.cleared := by
  cases h : o.need_update
  · simp [cleared_of_clean o h]
  · simp [Object.cleared]

theorem particle_loop_fold (os : List Object) :
    ∀ (pre rest : List float) (vis : List Object),
      rest.length = 12 * (particles os).length →
      os.foldl particle_loop_body { i := pre.length, matrices := pre ++ rest, visited := vis }
        = { i := pre.length + rest.length
            matrices := pre ++ (particles os).flatMap (fun o => transform_values o.tfm)
            visited := vis ++ os.map (fun o => if o.particle_id ≠ 0 then o.cleared else o) } := by
  induction os with
  | nil =>
    intro pre rest vis h
    have : rest = [] := by
      apply List.length_eq_zero.mp
      simpa [particles] using h
    subst this
    simp [particles]
  | cons o os ih =>
    intro pre rest vis h
    rw [List.foldl_cons]
    by_cases hp : o.particle_id ≠ 0
    · have hlen : rest.length = 12 * (particles os).length + 12 := by
        simp [particles, hp] at h
        simp [particles]
        omega
      have hsplit : rest = rest.take 12 ++ rest.drop 12 := (List.take_append_drop 12 rest).symm
      have htake : (rest.take 12).length = 12 := by
        rw [List.length_take]; omega
      have hdrop : (rest.drop 12).length = 12 * (particles os).length := by
        rw [List.length_drop]; omega
      have hstore := store_particle_eq pre (rest.take 12) (rest.drop 12) o.tfm htake
      rw [List.append_assoc, ← hsplit] at hstore
      have hb : particle_loop_body { i := pre.length, matrices := pre ++ rest, visited := vis } o
          = { i := (pre ++ transform_values o.tfm).length
              matrices := (pre ++ transform_values o.tfm) ++ rest.drop 12
              visited := vis ++ [o.cleared] } := by
        unfold particle_loop_body
        rw [if_neg (not_not.mpr hp)]
        simp only [clear_if_dirty]
        show ParticleLoop.mk (store_particle (pre ++ rest) pre.length o.cleared.tfm).2
          (store_particle (pre ++ rest) pre.length o.cleared.tfm).1 (vis ++ [o.cleared]) = _
        have : o.cleared.tfm = o.tfm := rfl
        rw [this, hstore]
        simp [transform_values_length]
      rw [hb, ih _ _ _ hdrop]
      have hpo : particles (o :: os) = o :: particles os := by simp [particles, hp]
      simp [hpo, hp, transform_values_length]
      omega
    · have hp0 : o.particle_id = 0 := by simpa using hp
      have hb : particle_loop_body { i := pre.length, matrices := pre ++ rest, visited := vis } o
          = { i := pre.length, matrices := pre ++ rest, visited := vis ++ [o] } := by
        simp [particle_loop_body, hp0]
      have hpo : particles (o :: os) = particles os := by simp [particles, hp0]
      rw [hb, ih pre rest _ (by rw [← hpo]; exact h)]
      simp [hpo, hp0]

theorem particles_map_direct (os : List Object) :
    particles (os.map (fun o => if o.particle_id ≠ 0 then o else o.cleared)) = particles os := by
  induction os with
  | nil => rfl
  | cons o os ih =>
    by_cases hp : o.particle_id ≠ 0
    · simp only [particles] at ih ⊢
      simpa [List.filter_cons, hp] using ih
    · have hp0 : o.particle_id = 0 := by simpa using hp
      simp only [particles] at ih ⊢
      simpa [List.filter_cons, hp0, Object.cleared] using ih

theorem batch_triggered_particles (os : List Object) (h : batch_triggered os = true) :
    (particles os).length ≠ 0 := by
  intro h0
  have : particles os = [] := List.length_eq_zero.mp h0
  simp [batch_triggered, this] at h

/-- Closed form of the turn of a mesh group that is not passed over. -/
theorem update_mesh_group_eq (scene : Scene) (m : Nat) (os : List Object)
    (hskip : skip_mesh_group scene (scene.mem_mesh m) = false) :
    update_mesh_group scene (m, os)
      = (mesh_group_after os, mesh_group_calls scene (scene.mem_mesh m) os) := by
  obtain ⟨h1, h2, h3, h4, -⟩ := mesh_loop_fold scene (scene.mem_mesh m) os
    { cnt := 0, matrices := new_float 12, mesh_needs_update := false, visited := [], calls := [] }
    (by simp [new_float])
  simp only [Nat.zero_add, Bool.false_or, List.nil_append] at h1 h2 h3 h4
  unfold update_mesh_group
  simp only [hskip, Bool.false_eq_true, if_false, h1, h2, h3, h4]
  cases hb : batch_triggered os
  · simp [mesh_group_after, mesh_group_calls, hb]
  · have hne := batch_triggered_particles os hb
    have hfold := particle_loop_fold
      (os.map (fun o => if o.particle_id ≠ 0 then o else o.cleared)) []
      (new_float ((particles os).length * 12)) []
      (by rw [particles_map_direct]; simp [new_float, Nat.mul_comm])
    simp only [List.length_nil, List.nil_append, particles_map_direct] at hfold
    simp only [hne, ne_eq, not_false_eq_true, decide_True, Bool.and_self, if_true, hfold]
    simp only [mesh_group_after, mesh_group_calls, hb, if_true, batch_upload, Scene.shader_names,
      List.map_map, Prod.mk.injEq, and_true]
    apply List.map_congr_left
    intro o _
    by_cases hp : o.particle_id ≠ 0
    · simp [hp]
    · have hp0 : o.particle_id = 0 := by simpa using hp
      simp [hp0, Object.cleared]

theorem light_loop_fold (cur_light : Light) (os : List Object) :
    ∀ st : LightLoop, st.matrices.length = 12 →
      (os.foldl (light_loop_body cur_light ["__" ++ cur_light.name]) st).visited
        = st.visited ++ os.map Object.cleared ∧
      (os.foldl (light_loop_body cur_light ["__" ++ cur_light.name]) st).calls
        = st.calls ++ light_uploads cur_light st.mesh_needs_update os := by
  induction os with
  | nil => intro st _; simp [light_uploads]
  | cons o os ih =>
    intro st h
    rw [List.foldl_cons]
    have hb : light_loop_body cur_light ["__" ++ cur_light.name] st o =
        { matrices := transform_values o.tfm
          mesh_needs_update := st.mesh_needs_update || o.need_update
          visited := st.visited ++ [o.cleared]
          calls := st.calls ++
            (if st.mesh_needs_update || o.need_update then [light_upload cur_light o] else []) } := by
      cases hd : o.need_update <;> cases hm : st.mesh_needs_update <;>
        simp [light_loop_body, hd, hm, store_light_eq _ _ h, light_upload, Object.cleared,
          cleared_of_clean]
      all_goals (cases o; simp_all)
    obtain ⟨h1, h2⟩ := ih (light_loop_body cur_light ["__" ++ cur_light.name] st o)
      (by rw [hb]; rfl)
    rw [h1, h2, hb]
    simp [light_uploads]

/-- Closed form of the turn of a light group that is not passed over. -/
theorem update_light_group_eq (scene : Scene) (l : Nat) (os : List Object)
    (hskip : skip_light_group scene (scene.mem_light l) = false) :
    update_light_group scene (l, os)
      = (os.map Object.cleared, light_uploads (scene.mem_light l) false os) := by
  obtain ⟨h1, h2⟩ := light_loop_fold (scene.mem_light l) os
    { matrices := new_float 12, mesh_needs_update := false, visited := [], calls := [] }
    (by simp [new_float])
  simp only [List.nil_append] at h1 h2
  unfold update_light_group
  simp only [hskip, Bool.false_eq_true, if_false, List.nil_append, h1, h2]

theorem update_mesh_group_skip (scene : Scene) (m : Nat) (os : List Object)
    (hskip : skip_mesh_group scene (scene.mem_mesh m) = true) :
    update_mesh_group scene (m, os) = (os, []) := by
  simp [update_mesh_group, hskip]

theorem update_light_group_skip (scene : Scene) (l : Nat) (os : List Object)
    (hskip : skip_light_group scene (scene.mem_light l) = true) :
    update_light_group scene (l, os) = (os, []) := by
  simp [update_light_group, hskip]

theorem foldl_groups {α : Type} (f : α → List Object × List Call) (gs : List α) (key : α → Nat) :
    ∀ acc : List (Nat × List Object) × List Call,
      gs.foldl (fun acc group => (acc.1 ++ [(key group, (f group).1)], acc.2 ++ (f group).2)) acc
        = (acc.1 ++ gs.map (fun g => (key g, (f g).1)), acc.2 ++ gs.flatMap (fun g => (f g).2)) := by
  induction gs with
  | nil => intro acc; simp
  | cons g gs ih => intro acc; rw [List.foldl_cons, ih]; simp

theorem update_mesh_groups_eq (scene : Scene) (gs : List (Nat × List Object)) :
    update_mesh_groups scene gs
      = (gs.map (fun g => (g.1, (update_mesh_group scene g).1)),
         gs.flatMap (fun g => (update_mesh_group scene g).2)) := by
  have := foldl_groups (update_mesh_group scene) gs (fun g => g.1) ([], [])
  simpa [update_mesh_groups] using this

theorem update_light_groups_eq (scene : Scene) (gs : List (Nat × List Object)) :
    update_light_groups scene gs
      = (gs.map (fun g => (g.1, (update_light_group scene g).1)),
         gs.flatMap (fun g => (update_light_group scene g).2)) := by
  have := foldl_groups (update_light_group scene) gs (fun g => g.1) ([], [])
  simpa [update_light_groups] using this

/-! ## The pass as a whole -/

theorem update_mesh_group_frame (scene : Scene) (objects light_objects : List (Nat × List Object))
    (om : ObjectManager) (g : Nat × List Object) :
    update_mesh_group
      { scene with objects := objects, light_objects := light_objects, object_manager := om } g
      = update_mesh_group scene g := rfl

theorem update_light_group_frame (scene : Scene)
    (objects light_objects : List (Nat × List Object)) (om : ObjectManager)
    (g : Nat × List Object) :
    update_light_group
      { scene with objects := objects, light_objects := light_objects, object_manager := om } g
      = update_light_group scene g := rfl

/-- The calls of the light part of the pass, entered after `polls` polls. -/
theorem server_update_lights_calls (scene : Scene) (progress : Progress) (calls : List Call)
    (polls : Nat) :
    (server_update_lights scene progress calls polls).2
      = calls ++
        (if scene.light_objects = [] then []
         else [Call.set_status "Updating Lamp Objects" "Copying Transformations to server",
                Call.get_cancel]
              ++ (if progress.get_cancel polls = true then []
                  else scene.light_objects.flatMap (fun g => (update_light_group scene g).2))) := by
  unfold server_update_lights
  by_cases h : scene.light_objects = []
  · simp [h]
  · have hlen : scene.light_objects.length ≠ 0 := fun h0 => h (List.length_eq_zero.mp h0)
    by_cases hc : progress.get_cancel polls = true
    · simp [h, hc]
    · simp [h, hc, update_light_groups_eq]

/-- The scene after the light part of the pass. -/
theorem server_update_lights_scene (scene : Scene) (progress : Progress) (calls : List Call)
    (polls : Nat) :
    (server_update_lights scene progress calls polls).1
      = { scene with
          light_objects :=
            if scene.light_objects = [] ∨ progress.get_cancel polls = true then scene.light_objects
            else scene.light_objects.map (fun g => (g.1, (update_light_group scene g).1)) } := by
  unfold server_update_lights
  by_cases h : scene.light_objects = []
  · simp only [h, List.length_nil, ne_eq, not_true_eq_false, if_false, true_or, if_true]
    cases scene
    simp_all
  · have hlen : scene.light_objects.length ≠ 0 := fun h0 => h (List.length_eq_zero.mp h0)
    by_cases hc : progress.get_cancel polls = true
    · simp [h, hc]
    · simp [h, hc, update_light_groups_eq]

/-- The pass when the manager is dirty, there is a mesh group and the first poll does not
report a cancellation. -/
theorem server_update_run (scene : Scene) (progress : Progress)
    (hm : scene.object_manager.need_update = true) (hne : scene.objects ≠ [])
    (hc : progress.get_cancel 0 = false) :
    (ObjectManager.server_update scene progress).2
      = [Call.set_status "Updating Objects" "Copying Transformations to server", Call.get_cancel]
        ++ scene.objects.flatMap (fun g => (update_mesh_group scene g).2)
        ++ (if scene.light_objects = [] then []
            else [Call.set_status "Updating Lamp Objects" "Copying Transformations to server",
                Call.get_cancel]
              ++ (if progress.get_cancel 1 = true then []
                  else scene.light_objects.flatMap (fun g => (update_light_group scene g).2))) ∧
    (ObjectManager.server_update scene progress).1.objects
      = scene.objects.map (fun g => (g.1, (update_mesh_group scene g).1)) ∧
    (ObjectManager.server_update scene progress).1.light_objects
      = (if scene.light_objects = [] ∨ progress.get_cancel 1 = true then scene.light_objects
         else scene.light_objects.map (fun g => (g.1, (update_light_group scene g).1))) := by
  have hlen : scene.objects.length ≠ 0 := by
    intro h; exact hne (List.length_eq_zero.mp h)
  unfold ObjectManager.server_update
  simp only [hm, Bool.not_true, Bool.false_eq_true, if_false, hlen, ne_eq, not_false_eq_true,
    if_true, hc]
  rw [server_update_lights_calls, server_update_lights_scene, update_mesh_groups_eq]
  simp only [update_mesh_group_frame, update_light_group_frame]
  simp

/-- The pass when the manager is dirty and there is no mesh group. -/
theorem server_update_run_lights (scene : Scene) (progress : Progress)
    (hm : scene.object_manager.need_update = true) (hne : scene.objects = []) :
    (ObjectManager.server_update scene progress).2
      = (if scene.light_objects = [] then []
         else [Call.set_status "Updating Lamp Objects" "Copying Transformations to server",
                Call.get_cancel]
              ++ (if progress.get_cancel 0 = true then []
                  else scene.light_objects.flatMap (fun g => (update_light_group scene g).2))) ∧
    (ObjectManager.server_update scene progress).1.objects = [] ∧
    (ObjectManager.server_update scene progress).1.light_objects
      = (if scene.light_objects = [] ∨ progress.get_cancel 0 = true then scene.light_objects
         else scene.light_objects.map (fun g => (g.1, (update_light_group scene g).1))) := by
  unfold ObjectManager.server_update
  simp only [hm, Bool.not_true, Bool.false_eq_true, if_false, hne, List.length_nil, ne_eq,
    not_true_eq_false]
  rw [server_update_lights_calls, server_update_lights_scene]
  simp only [update_light_group_frame, List.nil_append]
  simp [hne]

/-- The pass when the first poll reports a cancellation. -/
theorem server_update_cancelled (scene : Scene) (progress : Progress)
    (hm : scene.object_manager.need_update = true) (hne : scene.objects ≠ [])
    (hc : progress.get_cancel 0 = true) :
    ObjectManager.server_update scene progress
      = ({ scene with object_manager := { need_update := false } },
         [Call.set_status "Updating Objects" "Copying Transformations to server",
          Call.get_cancel]) := by
  have hlen : scene.objects.length ≠ 0 := by
    intro h; exact hne (List.length_eq_zero.mp h)
  unfold ObjectManager.server_update
  simp only [hm, Bool.not_true, Bool.false_eq_true, if_false, hlen, ne_eq, not_false_eq_true,
    if_true, hc]

/-- The pass when the manager is not dirty. -/
theorem server_update_clean (scene : Scene) (progress : Progress)
    (hm : scene.object_manager.need_update = false) :
    ObjectManager.server_update scene progress = (scene, []) := by
  unfold ObjectManager.server_update
  simp [hm]

/-- The pass when the manager is dirty and no poll reports a cancellation. -/
theorem server_update_full (scene : Scene) (progress : Progress)
    (hm : scene.object_manager.need_update = true)
    (hcancel : ∀ n, progress.get_cancel n = false) :
    (ObjectManager.server_update scene progress).2
      = (if scene.objects = [] then []
         else [Call.set_status "Updating Objects" "Copying Transformations to server",
                Call.get_cancel]
              ++ scene.objects.flatMap (fun g => (update_mesh_group scene g).2))
        ++ (if scene.light_objects = [] then []
            else [Call.set_status "Updating Lamp Objects" "Copying Transformations to server",
                Call.get_cancel]
              ++ scene.light_objects.flatMap (fun g => (update_light_group scene g).2)) ∧
    (ObjectManager.server_update scene progress).1.objects
      = scene.objects.map (fun g => (g.1, (update_mesh_group scene g).1)) ∧
    (ObjectManager.server_update scene progress).1.light_objects
      = scene.light_objects.map (fun g => (g.1, (update_light_group scene g).1)) := by
  by_cases hne : scene.objects = []
  · obtain ⟨hc, ho, hl⟩ := server_update_run_lights scene progress hm hne
    rw [hc, ho, hl]
    refine ⟨by simp [hne, hcancel 0], by simp [hne], ?_⟩
    by_cases hl0 : scene.light_objects = []
    · simp [hl0]
    · simp [hl0, hcancel 0]
  · obtain ⟨hc, ho, hl⟩ := server_update_run scene progress hm hne (hcancel 0)
    rw [hc, ho, hl]
    refine ⟨by simp [hne, hcancel 1], rfl, ?_⟩
    by_cases hl0 : scene.light_objects = []
    · simp [hl0]
    · simp [hl0, hcancel 1]

theorem update_mesh_group_objects (scene : Scene) (objects : List (Nat × List Object))
    (g : Nat × List Object) :
    update_mesh_group { scene with objects := objects } g = update_mesh_group scene g := rfl

theorem update_light_group_objects (scene : Scene) (objects : List (Nat × List Object))
    (g : Nat × List Object) :
    update_light_group { scene with objects := objects } g = update_light_group scene g := rfl

theorem update_mesh_group_light_objects (scene : Scene) (light_objects : List (Nat × List Object))
    (g : Nat × List Object) :
    update_mesh_group { scene with light_objects := light_objects } g
      = update_mesh_group scene g := rfl

theorem update_light_group_light_objects (scene : Scene)
    (light_objects : List (Nat × List Object)) (g : Nat × List Object) :
    update_light_group { scene with light_objects := light_objects } g
      = update_light_group scene g := rfl

theorem particles_insert_direct (a b : List Object) (o : Object) (h : o.particle_id = 0) :
    particles (a ++ o :: b) = particles (a ++ b) := by
  simp [particles, List.filter_cons, h]

theorem dirty_direct_insert (a b : List Object) (o : Object) (h : o.particle_id = 0)
    (hd : o.need_update = true) :
    dirty_direct (a ++ o :: b) = dirty_direct a ++ o :: dirty_direct b := by
  simp [dirty_direct, List.filter_cons, h, hd]

theorem batch_triggered_insert_direct (a b : List Object) (o : Object) (h : o.particle_id = 0) :
    batch_triggered (a ++ o :: b) = batch_triggered (a ++ b) := by
  simp [batch_triggered, particles_insert_direct a b o h]

theorem batch_upload_insert_direct (scene : Scene) (cur_mesh : Mesh) (a b : List Object)
    (o : Object) (h : o.particle_id = 0) :
    batch_upload scene cur_mesh (a ++ o :: b) = batch_upload scene cur_mesh (a ++ b) := by
  simp [batch_upload, particles_insert_direct a b o h]

/-- C1 (as amended): a dirty direct object (`particle_id = 0`) of a mesh group that the
group test does not pass over, in a pass that runs (manager flag true) and in which no poll
reports a cancellation, ends with `need_update = false` and nothing else changed, and exactly
one `load_scatter` call is made for it: the pass makes the calls of the pass on the scene
without the object plus this one call, with count 1, name `<object name>__<mesh name>`, the
mesh name as target and the twelve values of the transform in the order
x.x, x.y, x.z, x.w, y.x, y.y, y.z, y.w, z.x, z.y, z.z, z.w; the other objects end as they end
without it. -/
theorem server_update_direct_object (scene : Scene) (progress : Progress)
    (pre post : List (Nat × List Object)) (m : Nat) (a b : List Object) (o : Object)
    (hobjects : scene.objects = pre ++ (m, a ++ o :: b) :: post)
    (hmanager : scene.object_manager.need_update = true)
    (hcancel : ∀ n, progress.get_cancel n = false)
    (hskip : skip_mesh_group scene (scene.mem_mesh m) = false)
    (hdirect : o.particle_id = 0) (hdirty : o.need_update = true) :
    ∃ (pre' post' : List (Nat × List Object)) (a' b' : List Object) (t1 t2 : List Call),
      pre'.length = pre.length ∧ a'.length = a.length ∧
      (ObjectManager.server_update scene progress).1.objects
        = pre' ++ (m, a' ++ { o with need_update := false } :: b') :: post' ∧
      (ObjectManager.server_update
          { scene with objects := pre ++ (m, a ++ b) :: post } progress).1.objects
        = pre' ++ (m, a' ++ b') :: post' ∧
      (ObjectManager.server_update scene progress).2
        = t1 ++ Call.load_scatter (o.name ++ "__" ++ (scene.mem_mesh m).name)
            (scene.mem_mesh m).name
            [o.tfm.x.x, o.tfm.x.y, o.tfm.x.z, o.tfm.x.w, o.tfm.y.x, o.tfm.y.y, o.tfm.y.z,
              o.tfm.y.w, o.tfm.z.x, o.tfm.z.y, o.tfm.z.z, o.tfm.z.w]
            1 (o.used_shaders.map (fun it => (scene.shaders it).name)) :: t2 ∧
      (ObjectManager.server_update
          { scene with objects := pre ++ (m, a ++ b) :: post } progress).2 = t1 ++ t2 := by
  obtain ⟨hc, ho, -⟩ := server_update_run scene progress hmanager
    (by rw [hobjects]; simp) (hcancel 0)
  obtain ⟨hc0, ho0, -⟩ := server_update_run
    { scene with objects := pre ++ (m, a ++ b) :: post } progress hmanager (by simp) (hcancel 0)
  simp only [update_mesh_group_objects, update_light_group_objects] at hc0 ho0
  rw [hobjects] at hc ho
  rw [hc, ho, hc0, ho0]
  simp only [List.map_append, List.map_cons, List.flatMap_append, List.flatMap_cons,
    update_mesh_group_eq scene m _ hskip, mesh_group_after, mesh_group_calls,
    batch_triggered_insert_direct a b o hdirect, batch_upload_insert_direct _ _ a b o hdirect,
    dirty_direct_insert a b o hdirect hdirty]
  refine ⟨pre.map (fun g => (g.1, (update_mesh_group scene g).1)),
    post.map (fun g => (g.1, (update_mesh_group scene g).1)),
    a.map (fun o => if o.particle_id ≠ 0 ∧ batch_triggered (a ++ b) = false then o
      else o.cleared),
    b.map (fun o => if o.particle_id ≠ 0 ∧ batch_triggered (a ++ b) = false then o
      else o.cleared),
    [Call.set_status "Updating Objects" "Copying Transformations to server", Call.get_cancel]
      ++ pre.flatMap (fun g => (update_mesh_group scene g).2)
      ++ (dirty_direct a).map (direct_upload scene (scene.mem_mesh m)),
    (dirty_direct b).map (direct_upload scene (scene.mem_mesh m))
      ++ (if batch_triggered (a ++ b) then [batch_upload scene (scene.mem_mesh m) (a ++ b)]
          else [])
      ++ post.flatMap (fun g => (update_mesh_group scene g).2)
      ++ (if scene.light_objects = [] then []
          else [Call.set_status "Updating Lamp Objects" "Copying Transformations to server",
              Call.get_cancel]
            ++ (if progress.get_cancel 1 = true then []
                else scene.light_objects.flatMap (fun g => (update_light_group scene g).2))),
    by simp, by simp, ?_, ?_, ?_, ?_⟩
  · simp [hdirect, Object.cleared]
  · simp
  · simp [direct_upload, transform_values, Scene.shader_names]
  · simp [dirty_direct]

/-- C1 (as stated) fails: in a scene whose `meshes_type` is GLOBAL the group is passed over, so
the dirty object with `particle_id = 0` stays dirty and no `load_scatter` call is made in an
uncancelled pass. -/
theorem server_update_direct_object_counterexample :
    (sample_object "a" 0 true).particle_id = 0 ∧
    (sample_object "a" 0 true).need_update = true ∧
    (ObjectManager.server_update
        (sample_scene MeshType.GLOBAL [(1, [sample_object "a" 0 true])] [] true) never_cancel).2
      = [Call.set_status "Updating Objects" "Copying Transformations to server",
          Call.get_cancel] ∧
    (ObjectManager.server_update
        (sample_scene MeshType.GLOBAL [(1, [sample_object "a" 0 true])] [] true)
        never_cancel).1.objects
      = [(1, [sample_object "a" 0 true])] := by
  decide

/-- The amended C1 at a scene with one mesh group holding one dirty direct object. -/
theorem server_update_direct_object_witness :
    ∃ (pre' post' : List (Nat × List Object)) (a' b' : List Object) (t1 t2 : List Call),
      pre'.length = 0 ∧ a'.length = 0 ∧
      (ObjectManager.server_update
          (sample_scene MeshType.AS_IS [(1, [sample_object "a" 0 true])] [] true)
          never_cancel).1.objects
        = pre' ++ (1, a' ++ sample_object "a" 0 false :: b') :: post' ∧
      (ObjectManager.server_update
          (sample_scene MeshType.AS_IS [(1, [])] [] true) never_cancel).1.objects
        = pre' ++ (1, a' ++ b') :: post' ∧
      (ObjectManager.server_update
          (sample_scene MeshType.AS_IS [(1, [sample_object "a" 0 true])] [] true)
          never_cancel).2
        = t1 ++ Call.load_scatter "a__m" "m" [1, 2, 3, 4, 5, 6, 7, 8, 9, 10, 11, 12] 1 ["sh"]
            :: t2 ∧
      (ObjectManager.server_update
          (sample_scene MeshType.AS_IS [(1, [])] [] true) never_cancel).2 = t1 ++ t2 :=
  server_update_direct_object
    (sample_scene MeshType.AS_IS [(1, [sample_object "a" 0 true])] [] true) never_cancel
    [] [] 1 [] [] (sample_object "a" 0 true) rfl rfl (fun _ => rfl) rfl rfl rfl

theorem batch_triggered_of_dirty (os : List Object)
    (h : ∃ o ∈ os, o.particle_id ≠ 0 ∧ o.need_update = true) : batch_triggered os = true := by
  obtain ⟨o, ho, hp, hd⟩ := h
  simp only [batch_triggered, List.any_eq_true]
  exact ⟨o, by simp [particles, ho, hp], hd⟩

theorem particles_directs (os : List Object) :
    particles (os.filter (fun o => decide (o.particle_id = 0))) = [] := by
  simp [particles, List.filter_filter]

theorem dirty_direct_directs (os : List Object) :
    dirty_direct (os.filter (fun o => decide (o.particle_id = 0))) = dirty_direct os := by
  simp only [dirty_direct, List.filter_filter]
  congr 1
  funext o
  by_cases h : o.particle_id = 0 <;> simp [h]

theorem skip_of_global (scene : Scene) (cur_mesh : Mesh)
    (h : scene.meshes_type = MeshType.GLOBAL
      ∨ (scene.meshes_type = MeshType.AS_IS ∧ cur_mesh.mesh_type = MeshType.GLOBAL)) :
    skip_mesh_group scene cur_mesh = true := by
  rcases h with h | ⟨h1, h2⟩
  · simp [skip_mesh_group, h]
  · simp [skip_mesh_group, h1, h2]

/-- C3 (as amended): for a mesh group for which the scene is globally merged (the scene's
`meshes_type` is GLOBAL, or it is AS_IS and the mesh's own `mesh_type` is GLOBAL), whatever the
manager flag and the polls, `server_update` leaves the objects of the group as they were, and
makes the same calls as for the scene in which the group has no object at all: no call is
made for an object of the group. -/
theorem server_update_global_skip (scene : Scene) (progress : Progress)
    (pre post : List (Nat × List Object)) (m : Nat) (os : List Object)
    (hobjects : scene.objects = pre ++ (m, os) :: post)
    (hglobal : scene.meshes_type = MeshType.GLOBAL
      ∨ (scene.meshes_type = MeshType.AS_IS
          ∧ (scene.mem_mesh m).mesh_type = MeshType.GLOBAL)) :
    (∃ pre' post' : List (Nat × List Object),
      pre'.length = pre.length ∧
      (ObjectManager.server_update scene progress).1.objects = pre' ++ (m, os) :: post') ∧
    (ObjectManager.server_update scene progress).2
      = (ObjectManager.server_update { scene with objects := pre ++ (m, []) :: post }
          progress).2 := by
  have hskip := skip_of_global scene (scene.mem_mesh m) hglobal
  cases hm : scene.object_manager.need_update
  · have h0 := server_update_clean { scene with objects := pre ++ (m, []) :: post } progress hm
    rw [server_update_clean scene progress hm, h0]
    exact ⟨⟨pre, post, rfl, hobjects⟩, rfl⟩
  · cases hp : progress.get_cancel 0
    · obtain ⟨hc, ho, -⟩ := server_update_run scene progress hm (by rw [hobjects]; simp) hp
      obtain ⟨hc0, -, -⟩ := server_update_run
        { scene with objects := pre ++ (m, []) :: post } progress hm (by simp) hp
      simp only [update_mesh_group_objects, update_light_group_objects] at hc0
      rw [hobjects] at hc ho
      rw [hc, ho, hc0]
      simp only [List.map_append, List.map_cons, List.flatMap_append, List.flatMap_cons,
        update_mesh_group_skip scene m _ hskip]
      exact ⟨⟨_, _, by simp, rfl⟩, by simp⟩
    · have h0 := server_update_cancelled { scene with objects := pre ++ (m, []) :: post }
        progress hm (by simp) hp
      rw [server_update_cancelled scene progress hm (by rw [hobjects]; simp) hp, h0]
      exact ⟨⟨pre, post, rfl, hobjects⟩, rfl⟩

/-- The amended C3 at a scene in AS_IS mode whose meshes are GLOBAL, with a dirty direct
object and a dirty particle object. -/
theorem server_update_global_skip_witness :
    (∃ pre' post' : List (Nat × List Object),
      pre'.length = 0 ∧
      (ObjectManager.server_update
          { sample_scene MeshType.AS_IS
              [(1, [sample_object "a" 0 true, sample_object "p" 7 true])] [] true with
            mem_mesh := fun _ => ⟨"g", MeshType.GLOBAL, [3], false⟩ }
          never_cancel).1.objects
        = pre' ++ (1, [sample_object "a" 0 true, sample_object "p" 7 true]) :: post') ∧
    (ObjectManager.server_update
        { sample_scene MeshType.AS_IS
            [(1, [sample_object "a" 0 true, sample_object "p" 7 true])] [] true with
          mem_mesh := fun _ => ⟨"g", MeshType.GLOBAL, [3], false⟩ }
        never_cancel).2
      = (ObjectManager.server_update
          { sample_scene MeshType.AS_IS [(1, [])] [] true with
            mem_mesh := fun _ => ⟨"g", MeshType.GLOBAL, [3], false⟩ }
          never_cancel).2 :=
  server_update_global_skip
    { sample_scene MeshType.AS_IS
        [(1, [sample_object "a" 0 true, sample_object "p" 7 true])] [] true with
      mem_mesh := fun _ => ⟨"g", MeshType.GLOBAL, [3], false⟩ }
    never_cancel [] [] 1 [sample_object "a" 0 true, sample_object "p" 7 true] rfl
    (Or.inr ⟨rfl, rfl⟩)

/-- C3 (as stated) fails: under a scene-wide `meshes_type` MOVABLE_PROXY the mesh's own
`mesh_type` is not consulted, so on the first frame the group of a mesh whose `mesh_type` is
GLOBAL is not passed over: its dirty direct object is uploaded and ends clean. -/
theorem server_update_global_skip_counterexample :
    (({ sample_scene MeshType.MOVABLE_PROXY [(1, [sample_object "a" 0 true])] [] true with
          mem_mesh := fun _ => ⟨"g", MeshType.GLOBAL, [3], false⟩ } : Scene).mem_mesh
        1).mesh_type = MeshType.GLOBAL ∧
    (ObjectManager.server_update
        { sample_scene MeshType.MOVABLE_PROXY [(1, [sample_object "a" 0 true])] [] true with
          mem_mesh := fun _ => ⟨"g", MeshType.GLOBAL, [3], false⟩ }
        never_cancel).2
      = [Call.set_status "Updating Objects" "Copying Transformations to server",
          Call.get_cancel,
          Call.load_scatter "a__g" "g" [1, 2, 3, 4, 5, 6, 7, 8, 9, 10, 11, 12] 1 ["sh"]] ∧
    (ObjectManager.server_update
        { sample_scene MeshType.MOVABLE_PROXY [(1, [sample_object "a" 0 true])] [] true with
          mem_mesh := fun _ => ⟨"g", MeshType.GLOBAL, [3], false⟩ }
        never_cancel).1.objects
      = [(1, [sample_object "a" 0 false])] := by
  decide

/-- C4: when the manager is dirty, there is a light group and the poll made before the light
groups reports a cancellation (it is the first poll when there is no mesh group, the second
one otherwise), `server_update` leaves every object of every light group as it was, and the
mesh groups end, and the calls are, exactly as in an uncancelled pass on the scene without
its light groups, followed by the status report and the poll of the light part only: no
`load_scatter` call is made for a light object.  The uncancelled pass on the scene itself
leaves the mesh groups in the same state and continues the same calls with the light
uploads. -/
theorem server_update_cancel_before_lights (scene : Scene) (progress : Progress)
    (hmanager : scene.object_manager.need_update = true)
    (hlights : scene.light_objects ≠ [])
    (hpoll : (scene.objects = [] ∧ progress.get_cancel 0 = true)
      ∨ (scene.objects ≠ [] ∧ progress.get_cancel 0 = false ∧ progress.get_cancel 1 = true)) :
    (ObjectManager.server_update scene progress).1.light_objects = scene.light_objects ∧
    (ObjectManager.server_update scene progress).1.objects
      = (ObjectManager.server_update { scene with light_objects := [] } never_cancel).1.objects ∧
    (ObjectManager.server_update scene progress).2
      = (ObjectManager.server_update { scene with light_objects := [] } never_cancel).2
        ++ [Call.set_status "Updating Lamp Objects" "Copying Transformations to server",
            Call.get_cancel] ∧
    (ObjectManager.server_update scene never_cancel).1.objects
      = (ObjectManager.server_update scene progress).1.objects ∧
    (ObjectManager.server_update scene never_cancel).2
      = (ObjectManager.server_update scene progress).2
        ++ scene.light_objects.flatMap (fun g => (update_light_group scene g).2) := by
  rcases hpoll with ⟨hobj, hp0⟩ | ⟨hobj, hp0, hp1⟩
  · obtain ⟨hc, ho, hl⟩ := server_update_run_lights scene progress hmanager hobj
    obtain ⟨hcu, hou, -⟩ := server_update_run_lights { scene with light_objects := [] }
      never_cancel hmanager hobj
    obtain ⟨hcf, hof, -⟩ := server_update_run_lights scene never_cancel hmanager hobj
    rw [hc, ho, hl, hcu, hou, hcf, hof]
    simp [hlights, hp0, never_cancel]
  · obtain ⟨hc, ho, hl⟩ := server_update_run scene progress hmanager hobj hp0
    obtain ⟨hcu, hou, -⟩ := server_update_run { scene with light_objects := [] }
      never_cancel hmanager hobj rfl
    obtain ⟨hcf, hof, -⟩ := server_update_run scene never_cancel hmanager hobj rfl
    simp only [update_mesh_group_light_objects] at hcu hou
    rw [hc, ho, hl, hcu, hou, hcf, hof]
    simp [hlights, hp1, never_cancel]

/-- C4 at a scene with a dirty direct object in a mesh group and a dirty object in a light
group, the second poll reporting the cancellation. -/
theorem server_update_cancel_before_lights_witness :
    (ObjectManager.server_update
        (sample_scene MeshType.AS_IS [(1, [sample_object "a" 0 true])]
          [(2, [sample_lamp "d" true])] true)
        ⟨fun n => decide (n = 1)⟩).1.light_objects = [(2, [sample_lamp "d" true])] ∧
    (ObjectManager.server_update
        (sample_scene MeshType.AS_IS [(1, [sample_object "a" 0 true])]
          [(2, [sample_lamp "d" true])] true)
        ⟨fun n => decide (n = 1)⟩).1.objects
      = (ObjectManager.server_update
          (sample_scene MeshType.AS_IS [(1, [sample_object "a" 0 true])] [] true)
          never_cancel).1.objects ∧
    (ObjectManager.server_update
        (sample_scene MeshType.AS_IS [(1, [sample_object "a" 0 true])]
          [(2, [sample_lamp "d" true])] true)
        ⟨fun n => decide (n = 1)⟩).2
      = (ObjectManager.server_update
          (sample_scene MeshType.AS_IS [(1, [sample_object "a" 0 true])] [] true)
          never_cancel).2
        ++ [Call.set_status "Updating Lamp Objects" "Copying Transformations to server",
            Call.get_cancel] ∧
    (ObjectManager.server_update
        (sample_scene MeshType.AS_IS [(1, [sample_object "a" 0 true])]
          [(2, [sample_lamp "d" true])] true) never_cancel).1.objects
      = (ObjectManager.server_update
          (sample_scene MeshType.AS_IS [(1, [sample_object "a" 0 true])]
            [(2, [sample_lamp "d" true])] true)
          ⟨fun n => decide (n = 1)⟩).1.objects ∧
    (ObjectManager.server_update
        (sample_scene MeshType.AS_IS [(1, [sample_object "a" 0 true])]
          [(2, [sample_lamp "d" true])] true) never_cancel).2
      = (ObjectManager.server_update
          (sample_scene MeshType.AS_IS [(1, [sample_object "a" 0 true])]
            [(2, [sample_lamp "d" true])] true)
          ⟨fun n => decide (n = 1)⟩).2
        ++ [Call.load_scatter "d__l" "l" [1, 2, 3, 4, 5, 6, 7, 8, 9, 10, 11, 12] 1 ["__l"]] :=
  server_update_cancel_before_lights
    (sample_scene MeshType.AS_IS [(1, [sample_object "a" 0 true])]
      [(2, [sample_lamp "d" true])] true)
    ⟨fun n => decide (n = 1)⟩ rfl (by decide) (Or.inr ⟨by decide, rfl, rfl⟩)

theorem light_uploads_true (cur_light : Light) (os : List Object) :
    light_uploads cur_light true os = os.map (light_upload cur_light) := by
  induction os with
  | nil => rfl
  | cons o os ih => simp [light_uploads, ih]

theorem light_uploads_false (cur_light : Light) (os : List Object) :
    light_uploads cur_light false os
      = (os.drop (os.findIdx (fun o => o.need_update))).map (light_upload cur_light) := by
  induction os with
  | nil => rfl
  | cons o os ih =>
    cases hd : o.need_update
    · simp [light_uploads, hd, ih, List.findIdx_cons]
    · simp [light_uploads, hd, light_uploads_true, List.findIdx_cons]

/-- C6: the destructor of an object with `particle_id = 0` whose mesh has a `mesh_type` other
than GLOBAL, while the scene's session exists and is interactive, makes one call only, and it
is `delete_scatter` of `<object name>` + "__" + `<mesh name>` + "_s__". -/
theorem destructor_direct_object (scene : Scene) (self : Object) (mesh : Nat)
    (session : Session)
    (hmesh : self.mesh = some mesh)
    (hsession : scene.session = some session)
    (hinteractive : session.params.interactive = true)
    (htype : (scene.mem_mesh mesh).mesh_type ≠ MeshType.GLOBAL)
    (hparticle : self.particle_id = 0) :
    Object.destructor scene self
      = [Call.delete_scatter (self.name ++ "__" ++ (scene.mem_mesh mesh).name ++ "_s__")] := by
  simp [Object.destructor, hmesh, hsession, hinteractive, htype, hparticle]

/-- C6 at the sample object "a" of the sample scene. -/
theorem destructor_direct_object_witness :
    Object.destructor (sample_scene MeshType.AS_IS [] [] true) (sample_object "a" 0 true)
      = [Call.delete_scatter "a__m_s__"] :=
  destructor_direct_object (sample_scene MeshType.AS_IS [] [] true) (sample_object "a" 0 true)
    1 ⟨⟨true⟩⟩ rfl rfl rfl (by decide) rfl

/-- C8: when the manager's `need_update` flag is false, `server_update` makes no call at all
(no `load_scatter`, no status report, no poll) and returns the scene as it was, the manager's
flag and every object's flag included. -/
theorem server_update_gate (scene : Scene) (progress : Progress)
    (hmanager : scene.object_manager.need_update = false) :
    ObjectManager.server_update scene progress = (scene, []) :=
  server_update_clean scene progress hmanager

/-- C8 at a scene with dirty objects in a mesh group and in a light group. -/
theorem server_update_gate_witness :
    ObjectManager.server_update
        (sample_scene MeshType.AS_IS [(1, [sample_object "a" 0 true])]
          [(2, [sample_lamp "d" true])] false) never_cancel
      = (sample_scene MeshType.AS_IS [(1, [sample_object "a" 0 true])]
          [(2, [sample_lamp "d" true])] false, []) :=
  server_update_gate
    (sample_scene MeshType.AS_IS [(1, [sample_object "a" 0 true])]
      [(2, [sample_lamp "d" true])] false) never_cancel rfl

/-- C9: whatever the scene and whatever the polls answer, the manager's `need_update` flag
is false when `server_update` returns. -/
theorem server_update_clears_manager_flag (scene : Scene) (progress : Progress) :
    (ObjectManager.server_update scene progress).1.object_manager.need_update = false := by
  cases hm : scene.object_manager.need_update
  · rw [server_update_clean scene progress hm]
    exact hm
  · unfold ObjectManager.server_update
    simp only [hm, Bool.not_true, Bool.false_eq_true, if_false]
    split
    · split
      · rfl
      · rw [server_update_lights_scene]
    · rw [server_update_lights_scene]

/-- C10: after `ObjectManager::tag_update` the `need_update` flags of the object manager, of
the mesh manager and of the light manager are true, whatever they were, and the objects, the
meshes and all the rest of the scene are as before. -/
theorem tag_update_sets_managers (scene : Scene) :
    (ObjectManager.tag_update scene).object_manager.need_update = true ∧
    (ObjectManager.tag_update scene).mesh_manager.need_update = true ∧
    (ObjectManager.tag_update scene).light_manager.need_update = true ∧
    (ObjectManager.tag_update scene).objects = scene.objects ∧
    (ObjectManager.tag_update scene).light_objects = scene.light_objects ∧
    (ObjectManager.tag_update scene).mem_mesh = scene.mem_mesh ∧
    ObjectManager.tag_update scene
      = { scene with
          object_manager := ⟨true⟩, mesh_manager := ⟨true⟩, light_manager := ⟨true⟩ } :=
  ⟨rfl, rfl, rfl, rfl, rfl, rfl, rfl⟩

/-! ## `Object::tag_update` and the destructor -/

/-- C11: after `Object::tag_update` the object's `need_update` flag and the object manager's
`need_update` flag are true; and when the object has a mesh and the scene's `meshes_type` is
GLOBAL, or is AS_IS while the mesh's `mesh_type` is GLOBAL, the `need_update` flag of that mesh
and the mesh manager's `need_update` flag are true as well.  This holds wherever the scene
holds the object, and for an object it does not hold. -/
theorem tag_update_propagation (self : Object) (scene : Scene) (place : Option ObjectPlace) :
    (Object.tag_update self scene place).1.need_update = true ∧
    (Object.tag_update self scene place).2.object_manager.need_update = true ∧
    ∀ mesh : Nat, self.mesh = some mesh →
      (scene.meshes_type = MeshType.GLOBAL
        ∨ (scene.meshes_type = MeshType.AS_IS
            ∧ (scene.mem_mesh mesh).mesh_type = MeshType.GLOBAL)) →
      ((Object.tag_update self scene place).2.mem_mesh mesh).need_update = true ∧
      (Object.tag_update self scene place).2.mesh_manager.need_update = true := by
  refine ⟨rfl, rfl, ?_⟩
  intro mesh hmesh hglobal
  have hplace : ∀ (s : Scene) (o : Object),
      (match place with
        | some place => s.set_object_at place o
        | none => s).mem_mesh = s.mem_mesh ∧
      (match place with
        | some place => s.set_object_at place o
        | none => s).mesh_manager = s.mesh_manager := by
    intro s o
    cases place with
    | none => exact ⟨rfl, rfl⟩
    | some p =>
      simp only [Scene.set_object_at]
      split <;> exact ⟨rfl, rfl⟩
  unfold Object.tag_update
  simp only [hmesh, hglobal, if_true, (hplace _ _).1, (hplace _ _).2]
  cases hm : (scene.mem_mesh mesh).need_update <;> cases hmm : scene.mesh_manager.need_update <;>
    simp [hm, hmm]

/-- C11 at an object that a GLOBAL scene holds in a mesh group, with clean mesh and
managers. -/
theorem tag_update_propagation_witness :
    (Object.tag_update (sample_object "a" 0 false)
        (sample_scene MeshType.GLOBAL [(1, [sample_object "a" 0 false])] [] false)
        (some ⟨false, 0, 0⟩)).1.need_update = true ∧
    (Object.tag_update (sample_object "a" 0 false)
        (sample_scene MeshType.GLOBAL [(1, [sample_object "a" 0 false])] [] false)
        (some ⟨false, 0, 0⟩)).2.object_manager.need_update = true ∧
    ((Object.tag_update (sample_object "a" 0 false)
        (sample_scene MeshType.GLOBAL [(1, [sample_object "a" 0 false])] [] false)
        (some ⟨false, 0, 0⟩)).2.mem_mesh 1).need_update = true ∧
    (Object.tag_update (sample_object "a" 0 false)
        (sample_scene MeshType.GLOBAL [(1, [sample_object "a" 0 false])] [] false)
        (some ⟨false, 0, 0⟩)).2.mesh_manager.need_update = true :=
  ⟨(tag_update_propagation _ _ _).1, (tag_update_propagation _ _ _).2.1,
    (tag_update_propagation (sample_object "a" 0 false)
      (sample_scene MeshType.GLOBAL [(1, [sample_object "a" 0 false])] [] false)
      (some ⟨false, 0, 0⟩)).2.2 1 rfl (Or.inl rfl)⟩

/-- C12: the destructor makes a `delete_scatter` call exactly when the object has a mesh,
the scene has a session, the session is interactive and the mesh's `mesh_type` is not GLOBAL;
it is then its only call, named `<mesh name>` + "__part___s__" when `particle_id` is not 0
and `<object name>` + "__" + `<mesh name>` + "_s__" otherwise.  An object without a mesh
makes no call at all. -/
theorem destructor_case_split (scene : Scene) (self : Object) :
    ((∃ name : String, Call.delete_scatter name ∈ Object.destructor scene self) ↔
      ∃ (mesh : Nat) (session : Session),
        self.mesh = some mesh ∧ scene.session = some session ∧
        session.params.interactive = true ∧
        (scene.mem_mesh mesh).mesh_type ≠ MeshType.GLOBAL) ∧
    (∀ (mesh : Nat) (session : Session),
      self.mesh = some mesh → scene.session = some session →
      session.params.interactive = true →
      (scene.mem_mesh mesh).mesh_type ≠ MeshType.GLOBAL →
      Object.destructor scene self
        = [Call.delete_scatter
            (if self.particle_id ≠ 0 then (scene.mem_mesh mesh).name ++ "__part___s__"
             else self.name ++ "__" ++ (scene.mem_mesh mesh).name ++ "_s__")]) ∧
    (self.mesh = none → Object.destructor scene self = []) := by
  have hsplit : ∀ (mesh : Nat) (session : Session),
      self.mesh = some mesh → scene.session = some session →
      session.params.interactive = true →
      (scene.mem_mesh mesh).mesh_type ≠ MeshType.GLOBAL →
      Object.destructor scene self
        = [Call.delete_scatter
            (if self.particle_id ≠ 0 then (scene.mem_mesh mesh).name ++ "__part___s__"
             else self.name ++ "__" ++ (scene.mem_mesh mesh).name ++ "_s__")] := by
    intro mesh session hmesh hsession hinteractive htype
    by_cases hp : self.particle_id = 0 <;>
      simp [Object.destructor, hmesh, hsession, hinteractive, htype, hp]
  refine ⟨⟨?_, ?_⟩, hsplit, ?_⟩
  · rintro ⟨name, hname⟩
    unfold Object.destructor at hname
    split at hname
    · rename_i mesh session hmesh hsession
      by_cases hi : session.params.interactive = true
      · by_cases ht : (scene.mem_mesh mesh).mesh_type = MeshType.GLOBAL
        · simp [hi, ht] at hname
        · exact ⟨mesh, session, hmesh, hsession, hi, ht⟩
      · simp [hi] at hname
    · simp at hname
  · rintro ⟨mesh, session, hmesh, hsession, hi, ht⟩
    rw [hsplit mesh session hmesh hsession hi ht]
    exact ⟨_, List.mem_singleton.mpr rfl⟩
  · intro hnone
    simp [Object.destructor, hnone]

/-- C12 at a particle object of the sample scene, and at a lamp object, which has no mesh. -/
theorem destructor_case_split_witness :
    Object.destructor (sample_scene MeshType.AS_IS [] [] true) (sample_object "p" 7 true)
      = [Call.delete_scatter "m__part___s__"] ∧
    Object.destructor (sample_scene MeshType.AS_IS [] [] true) (sample_lamp "d" true) = [] :=
  ⟨(destructor_case_split (sample_scene MeshType.AS_IS [] [] true)
      (sample_object "p" 7 true)).2.1 1 ⟨⟨true⟩⟩ rfl rfl rfl (by decide),
    (destructor_case_split (sample_scene MeshType.AS_IS [] [] true)
      (sample_lamp "d" true)).2.2 rfl⟩

/-! ## Groups: the light rule, the batch trigger, the skip policy -/

/-- C13 fails on the code: in a light group that is not passed over and whose first object is
clean and whose second object is dirty, an uncancelled pass makes one `load_scatter` call
only, for the second object; the clean object standing before the dirty one gets none. -/
theorem server_update_light_group_rule_failing :
    skip_light_group (sample_scene MeshType.AS_IS [] [] true) ⟨"l", 1⟩ = false ∧
    (ObjectManager.server_update
        (sample_scene MeshType.AS_IS []
          [(2, [sample_lamp "c" false, sample_lamp "d" true])] true) never_cancel).2
      = [Call.set_status "Updating Lamp Objects" "Copying Transformations to server",
          Call.get_cancel,
          Call.load_scatter "d__l" "l" [1, 2, 3, 4, 5, 6, 7, 8, 9, 10, 11, 12] 1 ["__l"]] := by
  decide

theorem not_batch_triggered (os : List Object)
    (h : ¬ ∃ o ∈ os, o.particle_id ≠ 0 ∧ o.need_update = true) : batch_triggered os = false := by
  cases hb : batch_triggered os
  · rfl
  · exfalso
    apply h
    simp only [batch_triggered, particles, List.any_eq_true, List.mem_filter,
      decide_eq_true_eq] at hb
    obtain ⟨o, ⟨ho, hp⟩, hd⟩ := hb
    exact ⟨o, ho, hp, hd⟩

/-- C14 (as amended): for a mesh group that the group test does not pass over, in a pass that
runs and in which no poll reports a cancellation, the batched call of the group (the call of
line 186, named `<mesh name>__part__`, with the names of the shaders of the mesh) is made
exactly when some particle object of the group is dirty at the start.  When one is, the pass
makes the calls of the pass on the scene without the particle objects of the group plus the
one batched call, whose count is the number of particle objects and is not 0.  When none is,
the pass makes the same calls as on the scene without the particle objects of the group, and
the particle objects of the group are left as they were (the direct objects end clean).  The
batch is told by what it is, not by its name: the upload of a direct object can bear the
same name. -/
theorem server_update_batch_trigger (scene : Scene) (progress : Progress)
    (pre post : List (Nat × List Object)) (m : Nat) (os : List Object)
    (hobjects : scene.objects = pre ++ (m, os) :: post)
    (hmanager : scene.object_manager.need_update = true)
    (hcancel : ∀ n, progress.get_cancel n = false)
    (hskip : skip_mesh_group scene (scene.mem_mesh m) = false) :
    ((∃ o ∈ os, o.particle_id ≠ 0 ∧ o.need_update = true) →
      (∃ t1 t2 : List Call,
        (ObjectManager.server_update scene progress).2
          = t1 ++ Call.load_scatter ((scene.mem_mesh m).name ++ "__part__")
              (scene.mem_mesh m).name
              ((particles os).flatMap (fun o => transform_values o.tfm))
              (particles os).length
              ((scene.mem_mesh m).used_shaders.map (fun it => (scene.shaders it).name)) :: t2 ∧
        (ObjectManager.server_update
            { scene with
              objects := pre ++ (m, os.filter (fun o => decide (o.particle_id = 0))) :: post }
            progress).2 = t1 ++ t2) ∧
      (particles os).length ≠ 0) ∧
    ((¬ ∃ o ∈ os, o.particle_id ≠ 0 ∧ o.need_update = true) →
      (ObjectManager.server_update scene progress).2
        = (ObjectManager.server_update
            { scene with
              objects := pre ++ (m, os.filter (fun o => decide (o.particle_id = 0))) :: post }
            progress).2 ∧
      ∃ pre' post' : List (Nat × List Object),
        pre'.length = pre.length ∧
        (ObjectManager.server_update scene progress).1.objects
          = pre' ++ (m, os.map (fun o =>
              if o.particle_id ≠ 0 then o else { o with need_update := false })) :: post') := by
  obtain ⟨hc, ho, -⟩ := server_update_run scene progress hmanager
    (by rw [hobjects]; simp) (hcancel 0)
  obtain ⟨hc0, -, -⟩ := server_update_run
    { scene with objects := pre ++ (m, os.filter (fun o => decide (o.particle_id = 0))) :: post }
    progress hmanager (by simp) (hcancel 0)
  simp only [update_mesh_group_objects, update_light_group_objects] at hc0
  rw [hobjects] at hc ho
  have hnotrig : batch_triggered (os.filter (fun o => decide (o.particle_id = 0))) = false := by
    simp [batch_triggered, particles_directs]
  constructor
  · intro hdirty
    have htrig := batch_triggered_of_dirty os hdirty
    refine ⟨⟨[Call.set_status "Updating Objects" "Copying Transformations to server",
          Call.get_cancel]
        ++ pre.flatMap (fun g => (update_mesh_group scene g).2)
        ++ (dirty_direct os).map (direct_upload scene (scene.mem_mesh m)),
      post.flatMap (fun g => (update_mesh_group scene g).2)
        ++ (if scene.light_objects = [] then []
            else [Call.set_status "Updating Lamp Objects" "Copying Transformations to server",
                Call.get_cancel]
              ++ (if progress.get_cancel 1 = true then []
                  else scene.light_objects.flatMap (fun g => (update_light_group scene g).2))),
      ?_, ?_⟩, batch_triggered_particles os htrig⟩
    · rw [hc]
      simp [update_mesh_group_eq scene m _ hskip, mesh_group_calls, htrig, batch_upload,
        Scene.shader_names]
    · rw [hc0]
      simp [update_mesh_group_eq scene m _ hskip, mesh_group_calls, hnotrig,
        dirty_direct_directs]
  · intro hclean
    have htrig := not_batch_triggered os hclean
    constructor
    · rw [hc, hc0]
      simp [update_mesh_group_eq scene m _ hskip, mesh_group_calls, htrig, hnotrig,
        dirty_direct_directs]
    · refine ⟨pre.map (fun g => (g.1, (update_mesh_group scene g).1)),
        post.map (fun g => (g.1, (update_mesh_group scene g).1)), by simp, ?_⟩
      rw [ho]
      simp [update_mesh_group_eq scene m _ hskip, mesh_group_after, htrig, Object.cleared]

/-- C14 (as stated) fails: a group of the mesh "part__" that holds no particle object at all,
and one dirty direct object named "part__", gets a `load_scatter` call named
`<mesh name>__part__`: the upload of the direct object bears that name. -/
theorem server_update_batch_trigger_counterexample :
    particles [sample_object "part__" 0 true] = [] ∧
    "part__" ++ "__part__" = "part____part__" ∧
    (ObjectManager.server_update
        { sample_scene MeshType.AS_IS [(1, [sample_object "part__" 0 true])] [] true with
          mem_mesh := fun _ => ⟨"part__", MeshType.OTHER, [3], false⟩ }
        never_cancel).2
      = [Call.set_status "Updating Objects" "Copying Transformations to server",
          Call.get_cancel,
          Call.load_scatter "part____part__" "part__" [1, 2, 3, 4, 5, 6, 7, 8, 9, 10, 11, 12] 1
            ["sh"]] := by
  decide

/-- C14 at a group with a dirty particle object, and at a group whose only particle object is
clean, next to a dirty direct object. -/
theorem server_update_batch_trigger_witness :
    ((∃ t1 t2 : List Call,
        (ObjectManager.server_update
            (sample_scene MeshType.AS_IS [(1, [sample_object "q" 8 true])] [] true)
            never_cancel).2
          = t1 ++ Call.load_scatter "m__part__" "m" [1, 2, 3, 4, 5, 6, 7, 8, 9, 10, 11, 12] 1
              ["sh"] :: t2 ∧
        (ObjectManager.server_update (sample_scene MeshType.AS_IS [(1, [])] [] true)
            never_cancel).2 = t1 ++ t2) ∧
      [sample_object "q" 8 true].length ≠ 0) ∧
    ((ObjectManager.server_update
        (sample_scene MeshType.AS_IS
          [(1, [sample_object "p" 7 false, sample_object "a" 0 true])] [] true)
        never_cancel).2
      = (ObjectManager.server_update
          (sample_scene MeshType.AS_IS [(1, [sample_object "a" 0 true])] [] true)
          never_cancel).2 ∧
    ∃ pre' post' : List (Nat × List Object),
      pre'.length = 0 ∧
      (ObjectManager.server_update
          (sample_scene MeshType.AS_IS
            [(1, [sample_object "p" 7 false, sample_object "a" 0 true])] [] true)
          never_cancel).1.objects
        = pre' ++ (1, [sample_object "p" 7 false, sample_object "a" 0 false]) :: post') :=
  ⟨(server_update_batch_trigger
      (sample_scene MeshType.AS_IS [(1, [sample_object "q" 8 true])] [] true)
      never_cancel [] [] 1 [sample_object "q" 8 true]
      rfl rfl (fun _ => rfl) rfl).1 ⟨sample_object "q" 8 true, by decide, by decide, rfl⟩,
    (server_update_batch_trigger
      (sample_scene MeshType.AS_IS
        [(1, [sample_object "p" 7 false, sample_object "a" 0 true])] [] true)
      never_cancel [] [] 1 [sample_object "p" 7 false, sample_object "a" 0 true]
      rfl rfl (fun _ => rfl) rfl).2 (by decide)⟩

theorem dirty_direct_insert_clean (a b : List Object) (o : Object)
    (hd : o.need_update = false) :
    dirty_direct (a ++ o :: b) = dirty_direct (a ++ b) := by
  simp [dirty_direct, List.filter_cons, hd]

theorem countP_flatMap_sum {α β : Type} (p : β → Bool) (f : α → List β) (l : List α) :
    (l.flatMap f).countP p = (l.map (fun x => (f x).countP p)).sum := by
  induction l with
  | nil => rfl
  | cons x l ih => simp [List.countP_append, ih]

theorem countP_mesh_group_calls (scene : Scene) (cur_mesh : Mesh) (os : List Object) :
    (mesh_group_calls scene cur_mesh os).countP Call.is_single_upload
      = (dirty_direct os).length
        + (if batch_triggered os && (particles os).length == 1 then 1 else 0) := by
  have hdirect : ((dirty_direct os).map (direct_upload scene cur_mesh)).countP
      Call.is_single_upload = (dirty_direct os).length := by
    rw [List.countP_map]
    have : (Call.is_single_upload ∘ direct_upload scene cur_mesh) = fun _ => true := by
      funext o
      simp [direct_upload, Call.is_single_upload]
    rw [this]
    simp
  unfold mesh_group_calls
  rw [List.countP_append, hdirect]
  cases hb : batch_triggered os
  · simp
  · by_cases hone : (particles os).length = 1
    · simp [batch_upload, Call.is_single_upload, hone]
    · simp [batch_upload, Call.is_single_upload, hone]

/-- The calls of one mesh group, whether it is passed over or not. -/
theorem update_mesh_group_calls (scene : Scene) (g : Nat × List Object) :
    (update_mesh_group scene g).2
      = if skip_mesh_group scene (scene.mem_mesh g.1) = true then []
        else mesh_group_calls scene (scene.mem_mesh g.1) g.2 := by
  cases hs : skip_mesh_group scene (scene.mem_mesh g.1)
  · rw [show g = (g.1, g.2) from rfl, update_mesh_group_eq scene g.1 g.2 hs]
    simp
  · rw [show g = (g.1, g.2) from rfl, update_mesh_group_skip scene g.1 g.2 hs]
    simp

/-- A clean direct object at a given place of a mesh group: what it adds to the pass. -/
theorem clean_direct_object_adds_nothing (scene : Scene) (progress : Progress)
    (pre post : List (Nat × List Object)) (m : Nat) (a b : List Object) (o : Object)
    (hobjects : scene.objects = pre ++ (m, a ++ o :: b) :: post)
    (hdirect : o.particle_id = 0) (hclean : o.need_update = false) :
    (ObjectManager.server_update scene progress).2
      = (ObjectManager.server_update
          { scene with objects := pre ++ (m, a ++ b) :: post } progress).2 ∧
    (∃ (pre' post' : List (Nat × List Object)) (a' b' : List Object),
      pre'.length = pre.length ∧ a'.length = a.length ∧
      (ObjectManager.server_update scene progress).1.objects
        = pre' ++ (m, a' ++ o :: b') :: post' ∧
      (ObjectManager.server_update
          { scene with objects := pre ++ (m, a ++ b) :: post } progress).1.objects
        = pre' ++ (m, a' ++ b') :: post') ∧
    (scene.object_manager.need_update = true → (∀ n, progress.get_cancel n = false) →
      (ObjectManager.server_update scene progress).2
        = [Call.set_status "Updating Objects" "Copying Transformations to server",
            Call.get_cancel]
          ++ scene.objects.flatMap (fun g =>
              if skip_mesh_group scene (scene.mem_mesh g.1) = true then []
              else (dirty_direct g.2).map (direct_upload scene (scene.mem_mesh g.1))
                ++ (if batch_triggered g.2 = true
                    then [batch_upload scene (scene.mem_mesh g.1) g.2] else []))
          ++ (ObjectManager.server_update { scene with objects := [] } progress).2 ∧
      (scene.objects.flatMap (fun g =>
          if skip_mesh_group scene (scene.mem_mesh g.1) = true then []
          else (dirty_direct g.2).map (direct_upload scene (scene.mem_mesh g.1))
            ++ (if batch_triggered g.2 = true
                then [batch_upload scene (scene.mem_mesh g.1) g.2] else []))).countP
          Call.is_single_upload
        = (scene.objects.map (fun g =>
            if skip_mesh_group scene (scene.mem_mesh g.1) = true then 0
            else (dirty_direct g.2).length
              + (if batch_triggered g.2 && (particles g.2).length == 1 then 1 else 0))).sum) := by
  have hne : scene.objects ≠ [] := by rw [hobjects]; simp
  have hgroup : update_mesh_group scene (m, a ++ o :: b)
      = ((update_mesh_group scene (m, a ++ b)).1.take a.length ++ o
          :: (update_mesh_group scene (m, a ++ b)).1.drop a.length,
        (update_mesh_group scene (m, a ++ b)).2) := by
    cases hs : skip_mesh_group scene (scene.mem_mesh m)
    · rw [update_mesh_group_eq scene m _ hs, update_mesh_group_eq scene m _ hs]
      simp only [mesh_group_after, mesh_group_calls, batch_triggered_insert_direct a b o hdirect,
        batch_upload_insert_direct _ _ a b o hdirect, dirty_direct_insert_clean a b o hclean,
        List.map_append, List.map_cons]
      have hlen : (a.map (fun o => if o.particle_id ≠ 0 ∧ batch_triggered (a ++ b) = false
          then o else o.cleared)).length = a.length := by simp
      rw [← hlen, List.take_left, List.drop_left]
      simp [hdirect, cleared_of_clean o hclean]
    · rw [update_mesh_group_skip scene m _ hs, update_mesh_group_skip scene m _ hs]
      simp
  have hlen0 : ((update_mesh_group scene (m, a ++ b)).1.take a.length).length = a.length := by
    cases hs : skip_mesh_group scene (scene.mem_mesh m)
    · rw [update_mesh_group_eq scene m _ hs]
      simp [mesh_group_after]
    · rw [update_mesh_group_skip scene m _ hs]
      simp
  refine ⟨?_, ?_, ?_⟩
  · cases hm : scene.object_manager.need_update
    · have h0 := server_update_clean { scene with objects := pre ++ (m, a ++ b) :: post }
        progress hm
      rw [server_update_clean scene progress hm, h0]
    · cases hp : progress.get_cancel 0
      · obtain ⟨hc, -, -⟩ := server_update_run scene progress hm hne hp
        obtain ⟨hc0, -, -⟩ := server_update_run
          { scene with objects := pre ++ (m, a ++ b) :: post } progress hm (by simp) hp
        simp only [update_mesh_group_objects, update_light_group_objects] at hc0
        rw [hobjects] at hc
        rw [hc, hc0]
        simp only [List.flatMap_append, List.flatMap_cons, hgroup]
      · have h0 := server_update_cancelled
          { scene with objects := pre ++ (m, a ++ b) :: post } progress hm (by simp) hp
        rw [server_update_cancelled scene progress hm hne hp, h0]
  · cases hm : scene.object_manager.need_update
    · have h0 := server_update_clean { scene with objects := pre ++ (m, a ++ b) :: post }
        progress hm
      rw [server_update_clean scene progress hm, h0]
      exact ⟨pre, post, a, b, rfl, rfl, hobjects, rfl⟩
    · cases hp : progress.get_cancel 0
      · obtain ⟨-, ho, -⟩ := server_update_run scene progress hm hne hp
        obtain ⟨-, ho0, -⟩ := server_update_run
          { scene with objects := pre ++ (m, a ++ b) :: post } progress hm (by simp) hp
        simp only [update_mesh_group_objects, update_light_group_objects] at ho0
        rw [hobjects] at ho
        rw [ho, ho0]
        simp only [List.map_append, List.map_cons, hgroup]
        exact ⟨_, _, _, _, by simp, hlen0, rfl, by simp⟩
      · have h0 := server_update_cancelled
          { scene with objects := pre ++ (m, a ++ b) :: post } progress hm (by simp) hp
        rw [server_update_cancelled scene progress hm hne hp, h0]
        exact ⟨pre, post, a, b, rfl, rfl, hobjects, rfl⟩
  · intro hm hcancel
    obtain ⟨hc, -, -⟩ := server_update_run scene progress hm hne (hcancel 0)
    obtain ⟨hl, -, -⟩ := server_update_run_lights { scene with objects := [] } progress hm rfl
    simp only [update_light_group_objects] at hl
    constructor
    · rw [hc, hl]
      simp only [hcancel 0, hcancel 1, update_mesh_group_calls, mesh_group_calls]
    · rw [countP_flatMap_sum]
      congr 1
      apply List.map_congr_left
      intro g _
      cases hs : skip_mesh_group scene (scene.mem_mesh g.1)
      · simpa [mesh_group_calls] using countP_mesh_group_calls scene (scene.mem_mesh g.1) g.2
      · simp

/-- C16 (as stated) fails: a group that holds one dirty particle object and no direct object
gets one `load_scatter` call with count 1, the batch, while no direct object is dirty. -/
theorem server_update_clean_direct_object_counterexample :
    (ObjectManager.server_update
        (sample_scene MeshType.AS_IS [(1, [sample_object "p" 7 true])] [] true) never_cancel).2
      = [Call.set_status "Updating Objects" "Copying Transformations to server",
          Call.get_cancel,
          Call.load_scatter "m__part__" "m" [1, 2, 3, 4, 5, 6, 7, 8, 9, 10, 11, 12] 1 ["sh"]] ∧
    (ObjectManager.server_update
        (sample_scene MeshType.AS_IS [(1, [sample_object "p" 7 true])] [] true)
        never_cancel).2.countP Call.is_single_upload = 1 ∧
    ([sample_object "p" 7 true].filter
      (fun o => decide (o.particle_id = 0) && o.need_update)).length = 0 := by
  decide

/-- C16 (as amended): in every pass (whatever the manager flag, the polls and the group test)
a direct object (`particle_id = 0`) of a mesh group that is clean at the start gets no call,
the pass making the very calls of the pass on the scene without it, and it is left as it was.
For every scene, in a pass that runs and in which no poll reports a cancellation, the mesh
uploads are, group after group in the order of the groups, for each group that is not passed
over: one upload with count 1 per dirty direct object, in the order of the group, then the
batched upload of the group when it is triggered.  So the number of mesh uploads with count 1
is the number of dirty direct objects of the groups that are not passed over, plus the number
of such groups whose batch is triggered and holds exactly one particle object. -/
theorem server_update_clean_direct_object (scene : Scene) (progress : Progress) :
    (∀ (pre post : List (Nat × List Object)) (m : Nat) (a b : List Object) (o : Object),
      scene.objects = pre ++ (m, a ++ o :: b) :: post →
      o.particle_id = 0 → o.need_update = false →
      (ObjectManager.server_update scene progress).2
        = (ObjectManager.server_update
            { scene with objects := pre ++ (m, a ++ b) :: post } progress).2 ∧
      (∃ (pre' post' : List (Nat × List Object)) (a' b' : List Object),
        pre'.length = pre.length ∧ a'.length = a.length ∧
        (ObjectManager.server_update scene progress).1.objects
          = pre' ++ (m, a' ++ o :: b') :: post' ∧
        (ObjectManager.server_update
            { scene with objects := pre ++ (m, a ++ b) :: post } progress).1.objects
          = pre' ++ (m, a' ++ b') :: post')) ∧
    (scene.object_manager.need_update = true → (∀ n, progress.get_cancel n = false) →
      (ObjectManager.server_update scene progress).2
        = (if scene.objects = [] then []
           else [Call.set_status "Updating Objects" "Copying Transformations to server",
              Call.get_cancel]
            ++ scene.objects.flatMap (fun g =>
                if skip_mesh_group scene (scene.mem_mesh g.1) = true then []
                else (dirty_direct g.2).map (direct_upload scene (scene.mem_mesh g.1))
                  ++ (if batch_triggered g.2 = true
                      then [batch_upload scene (scene.mem_mesh g.1) g.2] else [])))
          ++ (ObjectManager.server_update { scene with objects := [] } progress).2 ∧
      (scene.objects.flatMap (fun g =>
          if skip_mesh_group scene (scene.mem_mesh g.1) = true then []
          else (dirty_direct g.2).map (direct_upload scene (scene.mem_mesh g.1))
            ++ (if batch_triggered g.2 = true
                then [batch_upload scene (scene.mem_mesh g.1) g.2] else []))).countP
          Call.is_single_upload
        = (scene.objects.map (fun g =>
            if skip_mesh_group scene (scene.mem_mesh g.1) = true then 0
            else (dirty_direct g.2).length
              + (if batch_triggered g.2 && (particles g.2).length == 1 then 1 else 0))).sum) := by
  constructor
  · intro pre post m a b o hobjects hdirect hclean
    have h := clean_direct_object_adds_nothing scene progress pre post m a b o hobjects
      hdirect hclean
    exact ⟨h.1, h.2.1⟩
  · intro hm hcancel
    obtain ⟨hc, -, -⟩ := server_update_full scene progress hm hcancel
    obtain ⟨hl, -, -⟩ := server_update_full { scene with objects := [] } progress hm hcancel
    simp only [update_light_group_objects] at hl
    constructor
    · rw [hc, hl]
      simp only [update_mesh_group_calls, mesh_group_calls, if_true, List.nil_append]
    · rw [countP_flatMap_sum]
      congr 1
      apply List.map_congr_left
      intro g _
      cases hs : skip_mesh_group scene (scene.mem_mesh g.1)
      · simpa [mesh_group_calls] using countP_mesh_group_calls scene (scene.mem_mesh g.1) g.2
      · simp

/-- The amended C16 at a group with a clean direct object, a dirty direct object and one dirty
particle object: the clean object adds nothing, and the uploads with count 1 are the upload
of the dirty direct object and the batch of the single particle object. -/
theorem server_update_clean_direct_object_witness :
    ((ObjectManager.server_update
        (sample_scene MeshType.AS_IS
          [(1, [sample_object "a" 0 false, sample_object "b" 0 true, sample_object "p" 7 true])]
          [] true) never_cancel).2
      = (ObjectManager.server_update
          (sample_scene MeshType.AS_IS
            [(1, [sample_object "b" 0 true, sample_object "p" 7 true])] [] true)
          never_cancel).2 ∧
    (∃ (pre' post' : List (Nat × List Object)) (a' b' : List Object),
      pre'.length = 0 ∧ a'.length = 0 ∧
      (ObjectManager.server_update
          (sample_scene MeshType.AS_IS
            [(1, [sample_object "a" 0 false, sample_object "b" 0 true,
              sample_object "p" 7 true])] [] true)
          never_cancel).1.objects
        = pre' ++ (1, a' ++ sample_object "a" 0 false :: b') :: post' ∧
      (ObjectManager.server_update
          (sample_scene MeshType.AS_IS
            [(1, [sample_object "b" 0 true, sample_object "p" 7 true])] [] true)
          never_cancel).1.objects
        = pre' ++ (1, a' ++ b') :: post')) ∧
    ((ObjectManager.server_update
        (sample_scene MeshType.AS_IS
          [(1, [sample_object "a" 0 false, sample_object "b" 0 true, sample_object "p" 7 true])]
          [] true) never_cancel).2
      = ([Call.set_status "Updating Objects" "Copying Transformations to server",
            Call.get_cancel]
          ++ [Call.load_scatter "b__m" "m" [1, 2, 3, 4, 5, 6, 7, 8, 9, 10, 11, 12] 1 ["sh"],
              Call.load_scatter "m__part__" "m" [1, 2, 3, 4, 5, 6, 7, 8, 9, 10, 11, 12] 1
                ["sh"]])
        ++ (ObjectManager.server_update (sample_scene MeshType.AS_IS [] [] true)
            never_cancel).2 ∧
    [Call.load_scatter "b__m" "m" [1, 2, 3, 4, 5, 6, 7, 8, 9, 10, 11, 12] 1 ["sh"],
        Call.load_scatter "m__part__" "m" [1, 2, 3, 4, 5, 6, 7, 8, 9, 10, 11, 12] 1
          ["sh"]].countP Call.is_single_upload = [1 + 1].sum) :=
  ⟨(server_update_clean_direct_object
      (sample_scene MeshType.AS_IS
        [(1, [sample_object "a" 0 false, sample_object "b" 0 true, sample_object "p" 7 true])]
        [] true)
      never_cancel).1 [] [] 1 [] [sample_object "b" 0 true, sample_object "p" 7 true]
      (sample_object "a" 0 false) rfl rfl rfl,
    (server_update_clean_direct_object
      (sample_scene MeshType.AS_IS
        [(1, [sample_object "a" 0 false, sample_object "b" 0 true, sample_object "p" 7 true])]
        [] true)
      never_cancel).2 rfl (fun _ => rfl)⟩

/-! ## What the pass never does, and cancellation before the mesh groups -/

theorem mesh_group_forall₂ (scene : Scene) (g : Nat × List Object) :
    List.Forall₂
      (fun o o' : Object => (o.need_update = false → o'.need_update = false) ∧ o'.tfm = o.tfm ∧
        o'.name = o.name ∧ o'.particle_id = o.particle_id)
      g.2 (update_mesh_group scene g).1 := by
  cases hs : skip_mesh_group scene (scene.mem_mesh g.1)
  · rw [show g = (g.1, g.2) from rfl, update_mesh_group_eq scene g.1 g.2 hs]
    simp only [mesh_group_after]
    rw [List.forall₂_map_right_iff, List.forall₂_same]
    intro o _
    split
    · exact ⟨id, rfl, rfl, rfl⟩
    · exact ⟨fun _ => rfl, rfl, rfl, rfl⟩
  · rw [show g = (g.1, g.2) from rfl, update_mesh_group_skip scene g.1 g.2 hs]
    rw [List.forall₂_same]
    intro o _
    exact ⟨id, rfl, rfl, rfl⟩

theorem light_group_forall₂ (scene : Scene) (g : Nat × List Object) :
    List.Forall₂
      (fun o o' : Object => (o.need_update = false → o'.need_update = false) ∧ o'.tfm = o.tfm ∧
        o'.name = o.name ∧ o'.particle_id = o.particle_id)
      g.2 (update_light_group scene g).1 := by
  cases hs : skip_light_group scene (scene.mem_light g.1)
  · rw [show g = (g.1, g.2) from rfl, update_light_group_eq scene g.1 g.2 hs]
    simp only
    rw [List.forall₂_map_right_iff, List.forall₂_same]
    intro o _
    exact ⟨fun _ => rfl, rfl, rfl, rfl⟩
  · rw [show g = (g.1, g.2) from rfl, update_light_group_skip scene g.1 g.2 hs]
    rw [List.forall₂_same]
    intro o _
    exact ⟨id, rfl, rfl, rfl⟩

/-- The mesh groups after `server_update`: untouched, or each after its turn. -/
theorem server_update_objects (scene : Scene) (progress : Progress) :
    (ObjectManager.server_update scene progress).1.objects = scene.objects ∨
    (ObjectManager.server_update scene progress).1.objects
      = scene.objects.map (fun g => (g.1, (update_mesh_group scene g).1)) := by
  cases hm : scene.object_manager.need_update
  · rw [server_update_clean scene progress hm]
    exact Or.inl rfl
  · by_cases hne : scene.objects = []
    · obtain ⟨-, ho, -⟩ := server_update_run_lights scene progress hm hne
      rw [ho, hne]
      exact Or.inl rfl
    · cases hp : progress.get_cancel 0
      · obtain ⟨-, ho, -⟩ := server_update_run scene progress hm hne hp
        exact Or.inr ho
      · rw [server_update_cancelled scene progress hm hne hp]
        exact Or.inl rfl

/-- The light groups after `server_update`: untouched, or each after its turn. -/
theorem server_update_light_objects (scene : Scene) (progress : Progress) :
    (ObjectManager.server_update scene progress).1.light_objects = scene.light_objects ∨
    (ObjectManager.server_update scene progress).1.light_objects
      = scene.light_objects.map (fun g => (g.1, (update_light_group scene g).1)) := by
  cases hm : scene.object_manager.need_update
  · rw [server_update_clean scene progress hm]
    exact Or.inl rfl
  · by_cases hne : scene.objects = []
    · obtain ⟨-, -, hl⟩ := server_update_run_lights scene progress hm hne
      rw [hl]
      split
      · exact Or.inl rfl
      · exact Or.inr rfl
    · cases hp : progress.get_cancel 0
      · obtain ⟨-, -, hl⟩ := server_update_run scene progress hm hne hp
        rw [hl]
        split
        · exact Or.inl rfl
        · exact Or.inr rfl
      · rw [server_update_cancelled scene progress hm hne hp]
        exact Or.inl rfl

/-- C17: whatever the scene, the manager flag and the polls, `server_update` keeps the groups
and the places of their objects, an object whose `need_update` flag is false before still has
it false afterwards, and no object's transform, name or `particle_id` is changed; this holds
for the mesh groups and for the light groups. -/
theorem server_update_never_dirties (scene : Scene) (progress : Progress) :
    List.Forall₂
      (fun g g' : Nat × List Object => g'.1 = g.1 ∧
        List.Forall₂
          (fun o o' : Object => (o.need_update = false → o'.need_update = false) ∧
            o'.tfm = o.tfm ∧ o'.name = o.name ∧ o'.particle_id = o.particle_id)
          g.2 g'.2)
      scene.objects (ObjectManager.server_update scene progress).1.objects ∧
    List.Forall₂
      (fun g g' : Nat × List Object => g'.1 = g.1 ∧
        List.Forall₂
          (fun o o' : Object => (o.need_update = false → o'.need_update = false) ∧
            o'.tfm = o.tfm ∧ o'.name = o.name ∧ o'.particle_id = o.particle_id)
          g.2 g'.2)
      scene.light_objects (ObjectManager.server_update scene progress).1.light_objects := by
  have hsame : ∀ gs : List (Nat × List Object),
      List.Forall₂
        (fun g g' : Nat × List Object => g'.1 = g.1 ∧
          List.Forall₂
            (fun o o' : Object => (o.need_update = false → o'.need_update = false) ∧
              o'.tfm = o.tfm ∧ o'.name = o.name ∧ o'.particle_id = o.particle_id)
            g.2 g'.2) gs gs := by
    intro gs
    rw [List.forall₂_same]
    intro g _
    refine ⟨rfl, ?_⟩
    rw [List.forall₂_same]
    intro o _
    exact ⟨id, rfl, rfl, rfl⟩
  constructor
  · rcases server_update_objects scene progress with h | h
    · rw [h]; exact hsame _
    · rw [h, List.forall₂_map_right_iff, List.forall₂_same]
      intro g _
      exact ⟨rfl, mesh_group_forall₂ scene g⟩
  · rcases server_update_light_objects scene progress with h | h
    · rw [h]; exact hsame _
    · rw [h, List.forall₂_map_right_iff, List.forall₂_same]
      intro g _
      exact ⟨rfl, light_group_forall₂ scene g⟩

/-- C18: when the manager flag is true, there is a mesh group and the first poll reports a
cancellation, `server_update` returns after the status report and that one poll: no
`load_scatter` call, no status report or poll of the light part, and the scene as it was but
for the manager flag, so every object keeps its `need_update` flag. -/
theorem server_update_cancel_before_meshes (scene : Scene) (progress : Progress)
    (hmanager : scene.object_manager.need_update = true)
    (hobjects : scene.objects ≠ [])
    (hpoll : progress.get_cancel 0 = true) :
    ObjectManager.server_update scene progress
      = ({ scene with object_manager := { need_update := false } },
         [Call.set_status "Updating Objects" "Copying Transformations to server",
          Call.get_cancel]) :=
  server_update_cancelled scene progress hmanager hobjects hpoll

/-- C18 at a scene with a dirty object in a mesh group and a dirty object in a light group. -/
theorem server_update_cancel_before_meshes_witness :
    ObjectManager.server_update
        (sample_scene MeshType.AS_IS [(1, [sample_object "a" 0 true])]
          [(2, [sample_lamp "d" true])] true) ⟨fun _ => true⟩
      = (sample_scene MeshType.AS_IS [(1, [sample_object "a" 0 true])]
          [(2, [sample_lamp "d" true])] false,
         [Call.set_status "Updating Objects" "Copying Transformations to server",
          Call.get_cancel]) :=
  server_update_cancel_before_meshes
    (sample_scene MeshType.AS_IS [(1, [sample_object "a" 0 true])]
      [(2, [sample_lamp "d" true])] true) ⟨fun _ => true⟩ rfl (by decide) rfl

/-! ## A second pass, and the exact set of light uploads -/

theorem update_mesh_group_congr (s s' : Scene) (g : Nat × List Object)
    (h1 : s'.meshes_type = s.meshes_type) (h2 : s'.first_frame = s.first_frame)
    (h3 : s'.anim_mode = s.anim_mode) (h4 : s'.shaders = s.shaders)
    (h5 : s'.mem_mesh = s.mem_mesh) :
    update_mesh_group s' g = update_mesh_group s g := by
  cases s; cases s'
  simp only at h1 h2 h3 h4 h5
  subst h1 h2 h3 h4 h5
  rfl

theorem update_light_group_congr (s s' : Scene) (g : Nat × List Object)
    (h1 : s'.meshes_type = s.meshes_type) (h2 : s'.first_frame = s.first_frame)
    (h3 : s'.anim_mode = s.anim_mode) (h5 : s'.mem_mesh = s.mem_mesh)
    (h6 : s'.mem_light = s.mem_light) :
    update_light_group s' g = update_light_group s g := by
  cases s; cases s'
  simp only at h1 h2 h3 h5 h6
  subst h1 h2 h3 h5 h6
  rfl

/-- The settings of the scene and the memory of meshes and lights after `server_update`. -/
theorem server_update_settings (scene : Scene) (progress : Progress) :
    (ObjectManager.server_update scene progress).1.meshes_type = scene.meshes_type ∧
    (ObjectManager.server_update scene progress).1.first_frame = scene.first_frame ∧
    (ObjectManager.server_update scene progress).1.anim_mode = scene.anim_mode ∧
    (ObjectManager.server_update scene progress).1.shaders = scene.shaders ∧
    (ObjectManager.server_update scene progress).1.mem_mesh = scene.mem_mesh ∧
    (ObjectManager.server_update scene progress).1.mem_light = scene.mem_light := by
  cases hm : scene.object_manager.need_update
  · rw [server_update_clean scene progress hm]
    exact ⟨rfl, rfl, rfl, rfl, rfl, rfl⟩
  · by_cases hne : scene.objects = []
    · unfold ObjectManager.server_update
      simp only [hm, Bool.not_true, Bool.false_eq_true, if_false, hne, List.length_nil, ne_eq,
        not_true_eq_false]
      rw [server_update_lights_scene]
      exact ⟨rfl, rfl, rfl, rfl, rfl, rfl⟩
    · cases hp : progress.get_cancel 0
      · have hlen : scene.objects.length ≠ 0 := fun h => hne (List.length_eq_zero.mp h)
        unfold ObjectManager.server_update
        simp only [hm, Bool.not_true, Bool.false_eq_true, if_false, hlen, ne_eq,
          not_false_eq_true, if_true, hp]
        rw [server_update_lights_scene]
        exact ⟨rfl, rfl, rfl, rfl, rfl, rfl⟩
      · rw [server_update_cancelled scene progress hm hne hp]
        exact ⟨rfl, rfl, rfl, rfl, rfl, rfl⟩

theorem mesh_group_after_clean (os : List Object) :
    ∀ o ∈ mesh_group_after os, o.need_update = false := by
  intro o ho
  simp only [mesh_group_after, List.mem_map] at ho
  obtain ⟨x, hx, rfl⟩ := ho
  split
  · rename_i h
    cases hd : x.need_update
    · rfl
    · exfalso
      have := batch_triggered_of_dirty os ⟨x, hx, h.1, hd⟩
      rw [h.2] at this
      exact Bool.false_ne_true this
  · rfl

theorem mesh_group_of_clean (scene : Scene) (cur_mesh : Mesh) (os : List Object)
    (h : ∀ o ∈ os, o.need_update = false) :
    mesh_group_after os = os ∧ mesh_group_calls scene cur_mesh os = [] := by
  have htrig : batch_triggered os = false := by
    apply not_batch_triggered
    rintro ⟨o, ho, -, hd⟩
    rw [h o ho] at hd
    exact Bool.false_ne_true hd
  have hdirect : dirty_direct os = [] := by
    simp only [dirty_direct, List.filter_eq_nil_iff]
    intro o ho
    simp [h o ho]
  constructor
  · simp only [mesh_group_after]
    conv_rhs => rw [← List.map_id os]
    apply List.map_congr_left
    intro o ho
    split
    · rfl
    · exact cleared_of_clean o (h o ho)
  · simp [mesh_group_calls, htrig, hdirect]

theorem light_uploads_of_clean (cur_light : Light) (os : List Object)
    (h : ∀ o ∈ os, o.need_update = false) :
    os.map Object.cleared = os ∧ light_uploads cur_light false os = [] := by
  induction os with
  | nil => exact ⟨rfl, rfl⟩
  | cons o os ih =>
    have ho := h o (by simp)
    obtain ⟨h1, h2⟩ := ih (fun x hx => h x (by simp [hx]))
    constructor
    · simp [cleared_of_clean o ho, h1]
    · simp [light_uploads, ho, h2]

/-- A mesh group that has had its turn makes no call at a second turn and stays as it is. -/
theorem update_mesh_group_again (scene : Scene) (g : Nat × List Object) :
    update_mesh_group scene (g.1, (update_mesh_group scene g).1)
      = ((update_mesh_group scene g).1, []) := by
  cases hs : skip_mesh_group scene (scene.mem_mesh g.1)
  · rw [update_mesh_group_eq scene g.1 _ hs]
    rw [show g = (g.1, g.2) from rfl, update_mesh_group_eq scene g.1 g.2 hs]
    obtain ⟨h1, h2⟩ := mesh_group_of_clean scene (scene.mem_mesh g.1) (mesh_group_after g.2)
      (mesh_group_after_clean g.2)
    simp only [h1, h2]
  · rw [update_mesh_group_skip scene g.1 _ hs]

/-- A light group that has had its turn makes no call at a second turn and stays as it is. -/
theorem update_light_group_again (scene : Scene) (g : Nat × List Object) :
    update_light_group scene (g.1, (update_light_group scene g).1)
      = ((update_light_group scene g).1, []) := by
  cases hs : skip_light_group scene (scene.mem_light g.1)
  · rw [update_light_group_eq scene g.1 _ hs]
    rw [show g = (g.1, g.2) from rfl, update_light_group_eq scene g.1 g.2 hs]
    obtain ⟨h1, h2⟩ := light_uploads_of_clean (scene.mem_light g.1) (g.2.map Object.cleared)
      (by intro o ho; simp only [List.mem_map] at ho; obtain ⟨x, -, rfl⟩ := ho; rfl)
    simp only [h1, h2]
  · rw [update_light_group_skip scene g.1 _ hs]

/-- C19: after a pass that runs (manager flag true) and in which no poll reports a
cancellation, every object of every mesh group and of every light group that the group test
does not pass over has `need_update = false`.  Hence, when `ObjectManager::tag_update` then
sets the manager flag again and nothing else is touched, a second such pass leaves every
mesh group and every light group as it is and makes no `load_scatter` call. -/
theorem server_update_idempotent (scene : Scene) (progress progress' : Progress)
    (hmanager : scene.object_manager.need_update = true)
    (hcancel : ∀ n, progress.get_cancel n = false)
    (hcancel' : ∀ n, progress'.get_cancel n = false) :
    (∀ g ∈ (ObjectManager.server_update scene progress).1.objects,
      skip_mesh_group scene (scene.mem_mesh g.1) = false → ∀ o ∈ g.2, o.need_update = false) ∧
    (∀ g ∈ (ObjectManager.server_update scene progress).1.light_objects,
      skip_light_group scene (scene.mem_light g.1) = false →
        ∀ o ∈ g.2, o.need_update = false) ∧
    (ObjectManager.server_update
        (ObjectManager.tag_update (ObjectManager.server_update scene progress).1)
        progress').1.objects
      = (ObjectManager.server_update scene progress).1.objects ∧
    (ObjectManager.server_update
        (ObjectManager.tag_update (ObjectManager.server_update scene progress).1)
        progress').1.light_objects
      = (ObjectManager.server_update scene progress).1.light_objects ∧
    ∀ c ∈ (ObjectManager.server_update
        (ObjectManager.tag_update (ObjectManager.server_update scene progress).1)
        progress').2, Call.is_load_scatter c = false := by
  obtain ⟨-, ho, hl⟩ := server_update_full scene progress hmanager hcancel
  obtain ⟨s1, s2, s3, s4, s5, s6⟩ := server_update_settings scene progress
  obtain ⟨hc', ho', hl'⟩ := server_update_full
    (ObjectManager.tag_update (ObjectManager.server_update scene progress).1) progress' rfl
    hcancel'
  have hmesh : ∀ g, update_mesh_group
      (ObjectManager.tag_update (ObjectManager.server_update scene progress).1) g
      = update_mesh_group scene g :=
    fun g => update_mesh_group_congr scene _ g s1 s2 s3 s4 s5
  have hlight : ∀ g, update_light_group
      (ObjectManager.tag_update (ObjectManager.server_update scene progress).1) g
      = update_light_group scene g :=
    fun g => update_light_group_congr scene _ g s1 s2 s3 s5 s6
  have hto : (ObjectManager.tag_update (ObjectManager.server_update scene progress).1).objects
      = scene.objects.map (fun g => (g.1, (update_mesh_group scene g).1)) := ho
  have htl : (ObjectManager.tag_update
      (ObjectManager.server_update scene progress).1).light_objects
      = scene.light_objects.map (fun g => (g.1, (update_light_group scene g).1)) := hl
  simp only [hmesh, hlight, hto, htl, List.map_map, List.flatMap_map, Function.comp_def,
    update_mesh_group_again, update_light_group_again] at hc' ho' hl'
  refine ⟨?_, ?_, ?_, ?_, ?_⟩
  · rw [ho]
    intro g hg hs o hog
    simp only [List.mem_map] at hg
    obtain ⟨g0, -, rfl⟩ := hg
    rw [show g0 = (g0.1, g0.2) from rfl, update_mesh_group_eq scene g0.1 g0.2 hs] at hog
    exact mesh_group_after_clean g0.2 o hog
  · rw [hl]
    intro g hg hs o hog
    simp only [List.mem_map] at hg
    obtain ⟨g0, -, rfl⟩ := hg
    rw [show g0 = (g0.1, g0.2) from rfl, update_light_group_eq scene g0.1 g0.2 hs] at hog
    simp only [List.mem_map] at hog
    obtain ⟨x, -, rfl⟩ := hog
    rfl
  · rw [ho', ho]
  · rw [hl', hl]
  · rw [hc']
    intro c hc
    have hflat : ∀ gs : List (Nat × List Object),
        gs.flatMap (fun _ => ([] : List Call)) = [] := by
      intro gs; induction gs with
      | nil => rfl
      | cons g gs ih => simp
    simp only [hflat, List.append_nil, List.mem_append] at hc
    rcases hc with hc | hc
    · split at hc
      · simp at hc
      · simp only [List.mem_cons, List.mem_singleton, List.not_mem_nil, or_false] at hc
        rcases hc with rfl | rfl <;> rfl
    · split at hc
      · simp at hc
      · simp only [List.mem_cons, List.mem_singleton, List.not_mem_nil, or_false] at hc
        rcases hc with rfl | rfl <;> rfl

/-- C19 at a scene with a dirty direct object, a dirty particle object and a dirty lamp. -/
theorem server_update_idempotent_witness :
    (∀ g ∈ (ObjectManager.server_update
        (sample_scene MeshType.AS_IS [(1, [sample_object "a" 0 true, sample_object "p" 7 true])]
          [(2, [sample_lamp "d" true])] true) never_cancel).1.objects,
      skip_mesh_group
        (sample_scene MeshType.AS_IS [(1, [sample_object "a" 0 true, sample_object "p" 7 true])]
          [(2, [sample_lamp "d" true])] true)
        ((sample_scene MeshType.AS_IS
          [(1, [sample_object "a" 0 true, sample_object "p" 7 true])]
          [(2, [sample_lamp "d" true])] true).mem_mesh g.1) = false →
      ∀ o ∈ g.2, o.need_update = false) ∧
    (ObjectManager.server_update
        (ObjectManager.tag_update (ObjectManager.server_update
          (sample_scene MeshType.AS_IS
            [(1, [sample_object "a" 0 true, sample_object "p" 7 true])]
            [(2, [sample_lamp "d" true])] true) never_cancel).1)
        never_cancel).1.objects
      = [(1, [sample_object "a" 0 false, sample_object "p" 7 false])] ∧
    (ObjectManager.server_update
        (ObjectManager.tag_update (ObjectManager.server_update
          (sample_scene MeshType.AS_IS
            [(1, [sample_object "a" 0 true, sample_object "p" 7 true])]
            [(2, [sample_lamp "d" true])] true) never_cancel).1)
        never_cancel).1.light_objects
      = [(2, [sample_lamp "d" false])] ∧
    ∀ c ∈ (ObjectManager.server_update
        (ObjectManager.tag_update (ObjectManager.server_update
          (sample_scene MeshType.AS_IS
            [(1, [sample_object "a" 0 true, sample_object "p" 7 true])]
            [(2, [sample_lamp "d" true])] true) never_cancel).1)
        never_cancel).2, Call.is_load_scatter c = false :=
  ⟨(server_update_idempotent
      (sample_scene MeshType.AS_IS [(1, [sample_object "a" 0 true, sample_object "p" 7 true])]
        [(2, [sample_lamp "d" true])] true)
      never_cancel never_cancel rfl (fun _ => rfl) (fun _ => rfl)).1,
    (server_update_idempotent
      (sample_scene MeshType.AS_IS [(1, [sample_object "a" 0 true, sample_object "p" 7 true])]
        [(2, [sample_lamp "d" true])] true)
      never_cancel never_cancel rfl (fun _ => rfl) (fun _ => rfl)).2.2.1,
    (server_update_idempotent
      (sample_scene MeshType.AS_IS [(1, [sample_object "a" 0 true, sample_object "p" 7 true])]
        [(2, [sample_lamp "d" true])] true)
      never_cancel never_cancel rfl (fun _ => rfl) (fun _ => rfl)).2.2.2.1,
    (server_update_idempotent
      (sample_scene MeshType.AS_IS [(1, [sample_object "a" 0 true, sample_object "p" 7 true])]
        [(2, [sample_lamp "d" true])] true)
      never_cancel never_cancel rfl (fun _ => rfl) (fun _ => rfl)).2.2.2.2⟩

/-- C20: for a light group that the group test does not pass over, in a pass that runs and
in which no poll reports a cancellation, the calls made for the group (the pass makes the
calls of the pass on the scene in which the group has no object, plus these) are the uploads
of the objects of the group from the first dirty one on, one each, in the order of the group.
The object at place j gets a call exactly when some object at a place i ≤ j of the group is
dirty at the start; the number of calls is the size of the group minus the place of the first
dirty object (none when no object is dirty), and the clean objects before the first dirty one
get no call. -/
theorem server_update_light_upload_set (scene : Scene) (progress : Progress)
    (pre post : List (Nat × List Object)) (l : Nat) (os : List Object)
    (hlights : scene.light_objects = pre ++ (l, os) :: post)
    (hmanager : scene.object_manager.need_update = true)
    (hcancel : ∀ n, progress.get_cancel n = false)
    (hskip : skip_light_group scene (scene.mem_light l) = false) :
    (∃ t1 t2 : List Call,
      (ObjectManager.server_update scene progress).2
        = t1 ++ (os.drop (os.findIdx (fun o => o.need_update))).map (fun o =>
            Call.load_scatter (o.name ++ "__" ++ (scene.mem_light l).name)
              (scene.mem_light l).name
              [o.tfm.x.x, o.tfm.x.y, o.tfm.x.z, o.tfm.x.w, o.tfm.y.x, o.tfm.y.y, o.tfm.y.z,
                o.tfm.y.w, o.tfm.z.x, o.tfm.z.y, o.tfm.z.z, o.tfm.z.w]
              1 ["__" ++ (scene.mem_light l).name]) ++ t2 ∧
      (ObjectManager.server_update { scene with light_objects := pre ++ (l, []) :: post }
          progress).2 = t1 ++ t2) ∧
    ((os.drop (os.findIdx (fun o => o.need_update))).length
      = os.length - os.findIdx (fun o => o.need_update)) ∧
    ((∀ o ∈ os, o.need_update = false) → os.findIdx (fun o => o.need_update) = os.length) ∧
    (∀ j : Nat, j < os.length →
      (os.findIdx (fun o => o.need_update) ≤ j ↔
        ∃ (i : Nat) (hi : i < os.length), i ≤ j ∧ os[i].need_update = true)) := by
  refine ⟨?_, by simp, ?_, ?_⟩
  · obtain ⟨hc, -, -⟩ := server_update_full scene progress hmanager hcancel
    obtain ⟨hc0, -, -⟩ := server_update_full
      { scene with light_objects := pre ++ (l, []) :: post } progress hmanager hcancel
    simp only [update_light_group_light_objects, update_mesh_group_light_objects] at hc0
    rw [hlights] at hc
    rw [hc, hc0]
    refine ⟨(if scene.objects = [] then []
        else [Call.set_status "Updating Objects" "Copying Transformations to server",
              Call.get_cancel]
            ++ scene.objects.flatMap (fun g => (update_mesh_group scene g).2))
        ++ [Call.set_status "Updating Lamp Objects" "Copying Transformations to server",
              Call.get_cancel]
        ++ pre.flatMap (fun g => (update_light_group scene g).2),
      post.flatMap (fun g => (update_light_group scene g).2), ?_, ?_⟩
    · simp only [List.flatMap_append, List.flatMap_cons, update_light_group_eq scene l os hskip,
        light_uploads_false, List.append_assoc, List.cons_ne_nil, List.append_eq_nil, and_false,
        if_false]
      rfl
    · simp [update_light_group_eq scene l [] hskip, light_uploads]
  · intro hclean
    exact List.findIdx_eq_length_of_false (by simpa using hclean)
  · intro j hj
    constructor
    · intro hk
      have hlt : os.findIdx (fun o => o.need_update) < os.length := by omega
      exact ⟨_, hlt, hk, List.findIdx_getElem⟩
    · rintro ⟨i, hi, hij, hd⟩
      by_contra hnot
      have hlt : i < os.findIdx (fun o => o.need_update) := by omega
      have := List.not_of_lt_findIdx hlt
      simp [hd] at this

/-- C20 at a light group with a clean object, then a dirty one, then a clean one: the last two
get a call. -/
theorem server_update_light_upload_set_witness :
    (∃ t1 t2 : List Call,
      (ObjectManager.server_update
          (sample_scene MeshType.AS_IS []
            [(2, [sample_lamp "c" false, sample_lamp "d" true, sample_lamp "e" false])] true)
          never_cancel).2
        = t1 ++ [Call.load_scatter "d__l" "l" [1, 2, 3, 4, 5, 6, 7, 8, 9, 10, 11, 12] 1 ["__l"],
            Call.load_scatter "e__l" "l" [1, 2, 3, 4, 5, 6, 7, 8, 9, 10, 11, 12] 1 ["__l"]]
          ++ t2 ∧
      (ObjectManager.server_update (sample_scene MeshType.AS_IS [] [(2, [])] true)
          never_cancel).2 = t1 ++ t2) ∧
    [sample_lamp "d" true, sample_lamp "e" false].length = 3 - 1 :=
  ⟨(server_update_light_upload_set
      (sample_scene MeshType.AS_IS []
        [(2, [sample_lamp "c" false, sample_lamp "d" true, sample_lamp "e" false])] true)
      never_cancel [] [] 2 [sample_lamp "c" false, sample_lamp "d" true, sample_lamp "e" false]
      rfl rfl (fun _ => rfl) rfl).1,
    (server_update_light_upload_set
      (sample_scene MeshType.AS_IS []
        [(2, [sample_lamp "c" false, sample_lamp "d" true, sample_lamp "e" false])] true)
      never_cancel [] [] 2 [sample_lamp "c" false, sample_lamp "d" true, sample_lamp "e" false]
      rfl rfl (fun _ => rfl) rfl).2.1⟩

/-! ## The frame of `Object::tag_update` -/

theorem object_in_set_other (groups : List (Nat × List Object)) (g i g' i' : Nat) (o : Object)
    (h : g' ≠ g ∨ i' ≠ i) :
    object_in (set_object_in groups g i o) g' i' = object_in groups g' i' := by
  unfold set_object_in
  cases hg : groups[g]? with
  | none => rfl
  | some grp =>
    simp only [object_in]
    rw [List.getElem?_set]
    by_cases hgg : g = g'
    · subst hgg
      have hi : i ≠ i' := by
        rcases h with h | h
        · exact absurd rfl h
        · exact fun e => h e.symm
      have hlt : g < groups.length := by
        by_contra hnot
        have : groups[g]? = none := List.getElem?_eq_none (by omega)
        rw [this] at hg
        exact Option.noConfusion hg
      simp only [if_true, hlt, hg, Option.some_bind]
      exact List.getElem?_set_ne hi
    · simp only [if_neg hgg]

theorem object_in_set_self (groups : List (Nat × List Object)) (g i : Nat) (o x : Object)
    (h : object_in groups g i = some x) :
    object_in (set_object_in groups g i o) g i = some o := by
  unfold set_object_in
  cases hg : groups[g]? with
  | none => simp [object_in, hg] at h
  | some grp =>
    have hx : grp.2[i]? = some x := by simpa [object_in, hg] using h
    have hlt : g < groups.length := by
      by_contra hnot
      have : groups[g]? = none := List.getElem?_eq_none (by omega)
      rw [this] at hg
      exact Option.noConfusion hg
    have hi : i < grp.2.length := by
      by_contra hnot
      have : grp.2[i]? = none := List.getElem?_eq_none (by omega)
      rw [this] at hx
      exact Option.noConfusion hx
    simp only [object_in]
    rw [List.getElem?_set]
    simp only [if_true, hlt, Option.some_bind]
    exact List.getElem?_set_self hi

theorem set_object_in_keys (groups : List (Nat × List Object)) (g i : Nat) (o : Object) :
    (set_object_in groups g i o).map Prod.fst = groups.map Prod.fst := by
  unfold set_object_in
  cases hg : groups[g]? with
  | none => rfl
  | some grp =>
    apply List.ext_getElem?
    intro n
    simp only [List.getElem?_map, List.getElem?_set]
    by_cases hgn : g = n
    · subst hgn
      by_cases hlt : g < groups.length
      · simp [hlt, hg]
      · have : groups[g]? = none := List.getElem?_eq_none (by omega)
        rw [this] at hg
        exact Option.noConfusion hg
    · simp [hgn]

theorem object_at_set_other (scene : Scene) (place other : ObjectPlace) (o : Object)
    (h : other ≠ place) :
    (scene.set_object_at place o).object_at other = scene.object_at other := by
  cases hp : place.lamp <;> cases ho : other.lamp <;>
    simp only [Scene.set_object_at, Scene.object_at, hp, ho, Bool.false_eq_true, if_false,
      if_true]
  · apply object_in_set_other
    by_contra hnot
    apply h
    have h1 : other.group = place.group := by
      by_contra hne; exact hnot (Or.inl hne)
    have h2 : other.index = place.index := by
      by_contra hne; exact hnot (Or.inr hne)
    cases place; cases other
    simp_all
  · apply object_in_set_other
    by_contra hnot
    apply h
    have h1 : other.group = place.group := by
      by_contra hne; exact hnot (Or.inl hne)
    have h2 : other.index = place.index := by
      by_contra hne; exact hnot (Or.inr hne)
    cases place; cases other
    simp_all

theorem object_at_set_self (scene : Scene) (place : ObjectPlace) (o x : Object)
    (h : scene.object_at place = some x) :
    (scene.set_object_at place o).object_at place = some o := by
  cases hp : place.lamp <;>
    simp only [Scene.set_object_at, Scene.object_at, hp, Bool.false_eq_true, if_false,
      if_true] at h ⊢
  · exact object_in_set_self _ _ _ o x h
  · exact object_in_set_self _ _ _ o x h

/-- The scene after `Object::tag_update` on a receiver that the scene holds at `place`: the
scene with a memory of meshes and a mesh manager, the receiver written at its place and the
object manager's flag set. -/
theorem tag_update_held (self : Object) (scene : Scene) (place : ObjectPlace) :
    ∃ (mem : Nat → Mesh) (manager : MeshManager),
      (Object.tag_update self scene (some place)).2
        = { ({ scene with mem_mesh := mem, mesh_manager := manager } : Scene).set_object_at
              place { self with need_update := true } with
            object_manager := { need_update := true } } ∧
      ((∀ mesh : Nat, self.mesh = some mesh →
          ¬ (scene.meshes_type = MeshType.GLOBAL
              ∨ (scene.meshes_type = MeshType.AS_IS
                  ∧ (scene.mem_mesh mesh).mesh_type = MeshType.GLOBAL))) →
        mem = scene.mem_mesh ∧ manager = scene.mesh_manager) ∧
      (∀ other : Nat, self.mesh ≠ some other → mem other = scene.mem_mesh other) ∧
      (∀ mesh : Nat, (mem mesh).name = (scene.mem_mesh mesh).name ∧
        (mem mesh).mesh_type = (scene.mem_mesh mesh).mesh_type ∧
        (mem mesh).used_shaders = (scene.mem_mesh mesh).used_shaders) := by
  have hupd : ∀ own : Nat, self.mesh = some own →
      (∀ other : Nat, self.mesh ≠ some other →
        Function.update scene.mem_mesh own { scene.mem_mesh own with need_update := true } other
          = scene.mem_mesh other) ∧
      (∀ mesh : Nat,
        (Function.update scene.mem_mesh own { scene.mem_mesh own with need_update := true }
          mesh).name = (scene.mem_mesh mesh).name ∧
        (Function.update scene.mem_mesh own { scene.mem_mesh own with need_update := true }
          mesh).mesh_type = (scene.mem_mesh mesh).mesh_type ∧
        (Function.update scene.mem_mesh own { scene.mem_mesh own with need_update := true }
          mesh).used_shaders = (scene.mem_mesh mesh).used_shaders) := by
    intro own hown
    constructor
    · intro other hother
      have hne : other ≠ own := by
        intro e; apply hother; rw [hown, e]
      rw [Function.update_noteq hne]
    · intro mesh
      by_cases hne : mesh = own
      · subst hne
        rw [Function.update_same]
        exact ⟨rfl, rfl, rfl⟩
      · rw [Function.update_noteq hne]
        exact ⟨rfl, rfl, rfl⟩
  have hkeep : (∀ other : Nat, self.mesh ≠ some other →
        scene.mem_mesh other = scene.mem_mesh other) ∧
      (∀ mesh : Nat, (scene.mem_mesh mesh).name = (scene.mem_mesh mesh).name ∧
        (scene.mem_mesh mesh).mesh_type = (scene.mem_mesh mesh).mesh_type ∧
        (scene.mem_mesh mesh).used_shaders = (scene.mem_mesh mesh).used_shaders) :=
    ⟨fun _ _ => rfl, fun _ => ⟨rfl, rfl, rfl⟩⟩
  unfold Object.tag_update
  cases hself : self.mesh with
  | none =>
    exact ⟨scene.mem_mesh, scene.mesh_manager, rfl, fun _ => ⟨rfl, rfl⟩, fun _ _ => rfl, hkeep.2⟩
  | some own =>
    dsimp only
    by_cases hg : scene.meshes_type = MeshType.GLOBAL
        ∨ (scene.meshes_type = MeshType.AS_IS
            ∧ (scene.mem_mesh own).mesh_type = MeshType.GLOBAL)
    · rw [if_pos hg]
      have hcontra : (∀ mesh : Nat, some own = some mesh →
          ¬ (scene.meshes_type = MeshType.GLOBAL
              ∨ (scene.meshes_type = MeshType.AS_IS
                  ∧ (scene.mem_mesh mesh).mesh_type = MeshType.GLOBAL))) → False :=
        fun hfail => hfail own rfl hg
      cases hm : (scene.mem_mesh own).need_update <;>
        cases hmm : scene.mesh_manager.need_update
      · refine ⟨Function.update scene.mem_mesh own
            { scene.mem_mesh own with need_update := true },
          { scene.mesh_manager with need_update := true }, ?_,
          fun hfail => (hcontra hfail).elim, fun other h => (hupd own hself).1 other (by rw [hself]; exact h),
          (hupd own hself).2⟩
        simp [hm, hmm]
      · refine ⟨Function.update scene.mem_mesh own
            { scene.mem_mesh own with need_update := true },
          scene.mesh_manager, ?_,
          fun hfail => (hcontra hfail).elim, fun other h => (hupd own hself).1 other (by rw [hself]; exact h),
          (hupd own hself).2⟩
        simp [hm, hmm]
      · refine ⟨scene.mem_mesh, { scene.mesh_manager with need_update := true }, ?_,
          fun hfail => (hcontra hfail).elim, fun _ _ => rfl, hkeep.2⟩
        simp [hm, hmm]
      · refine ⟨scene.mem_mesh, scene.mesh_manager, ?_,
          fun hfail => (hcontra hfail).elim, fun _ _ => rfl, hkeep.2⟩
        simp [hm, hmm]
    · rw [if_neg hg]
      exact ⟨scene.mem_mesh, scene.mesh_manager, rfl, fun _ => ⟨rfl, rfl⟩, fun _ _ => rfl, hkeep.2⟩

theorem set_object_at_frame (scene : Scene) (place : ObjectPlace) (o : Object) :
    (scene.set_object_at place o).mem_mesh = scene.mem_mesh ∧
    (scene.set_object_at place o).mesh_manager = scene.mesh_manager ∧
    (scene.set_object_at place o).light_manager = scene.light_manager ∧
    (scene.set_object_at place o).objects.map Prod.fst = scene.objects.map Prod.fst ∧
    (scene.set_object_at place o).light_objects.map Prod.fst
      = scene.light_objects.map Prod.fst := by
  unfold Scene.set_object_at
  cases hp : place.lamp
  · rw [if_neg (by simp)]
    exact ⟨rfl, rfl, rfl, set_object_in_keys _ _ _ _, rfl⟩
  · rw [if_pos rfl]
    exact ⟨rfl, rfl, rfl, rfl, set_object_in_keys _ _ _ _⟩

theorem object_at_object_manager (scene : Scene) (manager : ObjectManager)
    (place : ObjectPlace) :
    ({ scene with object_manager := manager } : Scene).object_at place
      = scene.object_at place := rfl

theorem object_at_meshes (scene : Scene) (mem : Nat → Mesh) (manager : MeshManager)
    (place : ObjectPlace) :
    ({ scene with mem_mesh := mem, mesh_manager := manager } : Scene).object_at place
      = scene.object_at place := rfl

/-- C21: `Object::tag_update` on an object that the scene holds at `place`.  When the global
condition fails for the object (it has no mesh, or the scene's `meshes_type` is not GLOBAL and
is not AS_IS with a GLOBAL-typed mesh), the whole memory of meshes, so the `need_update` flag
of its mesh, and the mesh manager are left as they were.  In every case the light manager is
left as it was, the object at every other place of the scene (in the mesh groups and in the
light groups) is left as it was, the groups keep their meshes and lights, every mesh other
than the object's own is left as it was, and the object's own mesh keeps its name, type and
shaders; at the place of the object itself stands the object with `need_update = true` and
nothing else changed. -/
theorem tag_update_frame (self : Object) (scene : Scene) (place : ObjectPlace)
    (hself : scene.object_at place = some self) :
    ((∀ mesh : Nat, self.mesh = some mesh →
        ¬ (scene.meshes_type = MeshType.GLOBAL
            ∨ (scene.meshes_type = MeshType.AS_IS
                ∧ (scene.mem_mesh mesh).mesh_type = MeshType.GLOBAL))) →
      (Object.tag_update self scene (some place)).2.mem_mesh = scene.mem_mesh ∧
      (Object.tag_update self scene (some place)).2.mesh_manager = scene.mesh_manager) ∧
    (Object.tag_update self scene (some place)).2.light_manager = scene.light_manager ∧
    (∀ other : ObjectPlace, other ≠ place →
      (Object.tag_update self scene (some place)).2.object_at other = scene.object_at other) ∧
    (Object.tag_update self scene (some place)).2.object_at place
      = some { self with need_update := true } ∧
    (Object.tag_update self scene (some place)).2.objects.map Prod.fst
      = scene.objects.map Prod.fst ∧
    (Object.tag_update self scene (some place)).2.light_objects.map Prod.fst
      = scene.light_objects.map Prod.fst ∧
    (∀ other : Nat, self.mesh ≠ some other →
      (Object.tag_update self scene (some place)).2.mem_mesh other = scene.mem_mesh other) ∧
    (∀ mesh : Nat,
      ((Object.tag_update self scene (some place)).2.mem_mesh mesh).name
        = (scene.mem_mesh mesh).name ∧
      ((Object.tag_update self scene (some place)).2.mem_mesh mesh).mesh_type
        = (scene.mem_mesh mesh).mesh_type ∧
      ((Object.tag_update self scene (some place)).2.mem_mesh mesh).used_shaders
        = (scene.mem_mesh mesh).used_shaders) := by
  obtain ⟨mem, manager, hR, hfail, hother, hfields⟩ := tag_update_held self scene place
  obtain ⟨f1, f2, f3, f4, f5⟩ := set_object_at_frame
    ({ scene with mem_mesh := mem, mesh_manager := manager } : Scene) place
    { self with need_update := true }
  rw [hR]
  refine ⟨?_, f3, ?_, ?_, f4, f5, ?_, ?_⟩
  · intro h
    obtain ⟨h1, h2⟩ := hfail h
    exact ⟨f1.trans h1, f2.trans h2⟩
  · intro other hne
    rw [object_at_object_manager, object_at_set_other _ _ _ _ hne, object_at_meshes]
  · rw [object_at_object_manager]
    exact object_at_set_self _ _ _ self (by rw [object_at_meshes]; exact hself)
  · intro other h
    exact (congrFun f1 other).trans (hother other h)
  · intro mesh
    have := hfields mesh
    have e : (({ ({ scene with mem_mesh := mem, mesh_manager := manager } : Scene).set_object_at
        place { self with need_update := true } with
        object_manager := { need_update := true } } : Scene).mem_mesh mesh) = mem mesh :=
      congrFun f1 mesh
    rw [e]
    exact this

/-- C21 at the first object of a mesh group of a scene whose `meshes_type` is neither GLOBAL
nor AS_IS, with a dirty object next to it and a clean lamp in a light group. -/
theorem tag_update_frame_witness :
    ((Object.tag_update (sample_object "a" 0 false)
        (sample_scene MeshType.MOVABLE_PROXY
          [(1, [sample_object "a" 0 false, sample_object "b" 0 true])]
          [(2, [sample_lamp "d" false])] false) (some ⟨false, 0, 0⟩)).2.mem_mesh
      = (sample_scene MeshType.MOVABLE_PROXY
          [(1, [sample_object "a" 0 false, sample_object "b" 0 true])]
          [(2, [sample_lamp "d" false])] false).mem_mesh ∧
    (Object.tag_update (sample_object "a" 0 false)
        (sample_scene MeshType.MOVABLE_PROXY
          [(1, [sample_object "a" 0 false, sample_object "b" 0 true])]
          [(2, [sample_lamp "d" false])] false) (some ⟨false, 0, 0⟩)).2.mesh_manager
      = ⟨false⟩) ∧
    (Object.tag_update (sample_object "a" 0 false)
        (sample_scene MeshType.MOVABLE_PROXY
          [(1, [sample_object "a" 0 false, sample_object "b" 0 true])]
          [(2, [sample_lamp "d" false])] false) (some ⟨false, 0, 0⟩)).2.light_manager
      = ⟨false⟩ ∧
    (Object.tag_update (sample_object "a" 0 false)
        (sample_scene MeshType.MOVABLE_PROXY
          [(1, [sample_object "a" 0 false, sample_object "b" 0 true])]
          [(2, [sample_lamp "d" false])] false) (some ⟨false, 0, 0⟩)).2.object_at ⟨false, 0, 1⟩
      = some (sample_object "b" 0 true) ∧
    (Object.tag_update (sample_object "a" 0 false)
        (sample_scene MeshType.MOVABLE_PROXY
          [(1, [sample_object "a" 0 false, sample_object "b" 0 true])]
          [(2, [sample_lamp "d" false])] false) (some ⟨false, 0, 0⟩)).2.object_at ⟨true, 0, 0⟩
      = some (sample_lamp "d" false) ∧
    (Object.tag_update (sample_object "a" 0 false)
        (sample_scene MeshType.MOVABLE_PROXY
          [(1, [sample_object "a" 0 false, sample_object "b" 0 true])]
          [(2, [sample_lamp "d" false])] false) (some ⟨false, 0, 0⟩)).2.object_at ⟨false, 0, 0⟩
      = some (sample_object "a" 0 true) :=
  ⟨(tag_update_frame (sample_object "a" 0 false)
      (sample_scene MeshType.MOVABLE_PROXY
        [(1, [sample_object "a" 0 false, sample_object "b" 0 true])]
        [(2, [sample_lamp "d" false])] false) ⟨false, 0, 0⟩ rfl).1
      (fun _ _ h => by
        rcases h with h | ⟨h, -⟩ <;> exact absurd h (by decide)),
    (tag_update_frame (sample_object "a" 0 false)
      (sample_scene MeshType.MOVABLE_PROXY
        [(1, [sample_object "a" 0 false, sample_object "b" 0 true])]
        [(2, [sample_lamp "d" false])] false) ⟨false, 0, 0⟩ rfl).2.1,
    (tag_update_frame (sample_object "a" 0 false)
      (sample_scene MeshType.MOVABLE_PROXY
        [(1, [sample_object "a" 0 false, sample_object "b" 0 true])]
        [(2, [sample_lamp "d" false])] false) ⟨false, 0, 0⟩ rfl).2.2.1 ⟨false, 0, 1⟩
      (by decide),
    (tag_update_frame (sample_object "a" 0 false)
      (sample_scene MeshType.MOVABLE_PROXY
        [(1, [sample_object "a" 0 false, sample_object "b" 0 true])]
        [(2, [sample_lamp "d" false])] false) ⟨false, 0, 0⟩ rfl).2.2.1 ⟨true, 0, 0⟩
      (by decide),
    (tag_update_frame (sample_object "a" 0 false)
      (sample_scene MeshType.MOVABLE_PROXY
        [(1, [sample_object "a" 0 false, sample_object "b" 0 true])]
        [(2, [sample_lamp "d" false])] false) ⟨false, 0, 0⟩ rfl).2.2.2.1⟩

end Octane
